import Mathlib

/-!
CCAChikorita: the "expolinear" and "linear" congestion-control modules

A shallow embedding of `src/expolin01.c` and `src/linha01.c`.

* `u32` values are natural numbers reduced modulo `2^32`, the `u64` clock is
  reduced modulo `2^64`.
* The per-socket fields the modules touch (`tp->snd_cwnd`, `tp->snd_ssthresh`,
  `tp->snd_nxt`) and the file-level `static` variables form one `State` record
  per module.
* Every callback reads the clock (`ktime_get_ns()`) at most once, so the value
  it reads is passed as the argument `now`.
-/

namespace CCA

/-! ## Machine arithmetic -/

/-- The number of `u32` values, `2^32`. -/
def U32_SIZE : Nat := 4294967296

/-- The number of `u64` values, `2^64`. -/
def U64_SIZE : Nat := 18446744073709551616

/-- Truncation of a value to `u32`. -/
def u32 (x : Nat) : Nat := x % U32_SIZE

/-- The `u32` subtraction `a - b`, wrapping modulo `2^32`. -/
def sub32 (a b : Nat) : Nat := (a + U32_SIZE - b % U32_SIZE) % U32_SIZE

/-- The `u64` subtraction `a - b`, wrapping modulo `2^64`. -/
def sub64 (a b : Nat) : Nat := (a + U64_SIZE - b % U64_SIZE) % U64_SIZE

/-- The C expression `x >> n` on a non-negative 32-bit `int` `x`.  C defines the
result only for `n < 32`; for `n ≥ 32` the value is whatever the target machine
produces, given here by `hw x n` (kept to 32 bits). -/
def shr32 (hw : Nat → Nat → Nat) (x n : Nat) : Nat :=
  if n < 32 then x >>> n else u32 (hw x n)

/-- A target whose shifter uses the low five bits of the count (x86, arm64). -/
def maskedShift (x n : Nat) : Nat := x >>> (n % 32)

/-- A target whose shifter yields zero for a count of 32 or more. -/
def zeroShift (_x _n : Nat) : Nat := 0

/-- The fields of `struct rate_sample` read by `simple_cong_control`. -/
structure RateSample where
  losses : Nat
  acked_sacked : Nat
deriving DecidableEq, Repr

/-- The expression `(u32)((current_time_ns - start_time_ns) / 1000000)`. -/
def time_in_ms (start_time_ns current_time_ns : Nat) : Nat :=
  u32 (sub64 current_time_ns start_time_ns / 1000000)

/-! ## `src/expolin01.c` -/

namespace Expolin

/-- The macro `FIXED_POINT_SCALE`. -/
def FIXED_POINT_SCALE : Nat := 65536

/-- The socket fields and the file-level statics of `expolin01.c`. -/
structure State where
  snd_cwnd : Nat
  snd_ssthresh : Nat
  snd_nxt : Nat
  start_time_ns : Nat
  recovery_mode : Int
  recovery_point : Nat
  jBase : Nat
  snd_second_thresh : Nat
  drep : Nat
deriving DecidableEq, Repr

/-- The function `expAdjust` (lines 23-33). -/
def expAdjust (hw : Nat → Nat → Nat) (t k L : Nat) : Nat :=
  if k = 0 then 0
  else
    let scaled_time := t / k
    let scaled_exponent := shr32 hw FIXED_POINT_SCALE scaled_time
    let adjustment := sub32 FIXED_POINT_SCALE scaled_exponent
    u32 (L * adjustment) >>> 16

/-- The callback `simple_init` (lines 35-42); `TCP_INIT_CWND` is the kernel's
macro, `now` the value of `ktime_get_ns()`. -/
def simple_init (TCP_INIT_CWND now : Nat) (s : State) : State :=
  { s with
    snd_cwnd := TCP_INIT_CWND
    start_time_ns := now
    recovery_mode := 0
    recovery_point := 0 }

/-- The callback `simple_ssthresh` (lines 44-51): the returned value and the
state it leaves. -/
def simple_ssthresh (now : Nat) (s : State) : Nat × State :=
  (s.snd_cwnd / 2,
   { s with
     start_time_ns := now
     recovery_mode := 1
     recovery_point := s.snd_nxt })

/-- The callback `simple_cong_control` (lines 53-98). -/
def simple_cong_control (hw : Nat → Nat → Nat) (now : Nat) (rs : RateSample)
    (s : State) : State :=
  if rs.losses > 0 then
    if s.recovery_mode = 0 ∨ s.snd_nxt > s.recovery_point then
      let decrement := u32 (s.snd_cwnd * 2) / 10
      let cwnd := sub32 s.snd_cwnd decrement
      { s with
        recovery_mode := 1
        recovery_point := s.snd_nxt
        snd_second_thresh := s.snd_cwnd
        snd_ssthresh := s.snd_cwnd / 2
        snd_cwnd := cwnd
        jBase := cwnd
        start_time_ns := now
        drep := decrement }
    else s
  else if rs.acked_sacked ≠ 0 then
    let t := time_in_ms s.start_time_ns now
    if s.recovery_mode ≠ 0 then
      let increment := u32 (s.jBase + expAdjust hw t 4 s.drep + 1)
      let cwnd := max increment 1
      if cwnd ≥ s.snd_second_thresh then
        { s with snd_cwnd := cwnd, recovery_mode := 0 }
      else
        { s with snd_cwnd := cwnd }
    else if s.snd_cwnd < s.snd_ssthresh then
      let increment := u32 (2 * t * t * t)
      { s with snd_cwnd := u32 (s.snd_cwnd + max increment 2) }
    else
      let increment := u32 (s.snd_second_thresh + 2 * t)
      { s with snd_cwnd := max increment 1 }
  else s

/-- The callback `simple_undo_cwnd` (lines 100-105): the returned value and the
(untouched) state. -/
def simple_undo_cwnd (s : State) : Nat × State :=
  (max s.snd_cwnd 2, s)

end Expolin

/-! ## `src/linha01.c` -/

namespace Linha

/-- The socket fields and the file-level statics of `linha01.c`. -/
structure State where
  snd_cwnd : Nat
  snd_ssthresh : Nat
  snd_nxt : Nat
  start_time_ns : Nat
  recovery_mode : Int
  recovery_point : Nat
  jBase : Nat
  snd_second_thresh : Nat
deriving DecidableEq, Repr

/-- The callback `simple_init` (lines 19-26). -/
def simple_init (TCP_INIT_CWND now : Nat) (s : State) : State :=
  { s with
    snd_cwnd := TCP_INIT_CWND
    start_time_ns := now
    recovery_mode := 0
    recovery_point := 0 }

/-- The callback `simple_ssthresh` (lines 28-35). -/
def simple_ssthresh (now : Nat) (s : State) : Nat × State :=
  (s.snd_cwnd / 2,
   { s with
     start_time_ns := now
     recovery_mode := 1
     recovery_point := s.snd_nxt })

/-- The callback `simple_cong_control` (lines 37-79). -/
def simple_cong_control (now : Nat) (rs : RateSample) (s : State) : State :=
  if rs.losses > 0 then
    if s.recovery_mode = 0 ∨ s.snd_nxt > s.recovery_point then
      let cwnd := u32 (s.snd_cwnd * 9) / 10
      { s with
        recovery_mode := 1
        recovery_point := s.snd_nxt
        snd_second_thresh := s.snd_cwnd
        snd_ssthresh := s.snd_cwnd / 2
        snd_cwnd := cwnd
        jBase := cwnd
        start_time_ns := now }
    else s
  else if rs.acked_sacked ≠ 0 then
    let t := time_in_ms s.start_time_ns now
    if s.recovery_mode ≠ 0 then
      let increment := u32 (s.jBase + 1 * t)
      let cwnd := max increment 1
      if cwnd ≥ s.snd_second_thresh then
        { s with snd_cwnd := cwnd, recovery_mode := 0 }
      else
        { s with snd_cwnd := cwnd }
    else if s.snd_cwnd < s.snd_ssthresh then
      let increment := u32 (2 * t * t * t)
      { s with snd_cwnd := u32 (s.snd_cwnd + max increment 2) }
    else
      let increment := u32 (s.snd_second_thresh + 2 * t)
      { s with snd_cwnd := max increment 1 }
  else s

/-- The callback `simple_undo_cwnd` (lines 81-86). -/
def simple_undo_cwnd (s : State) : Nat × State :=
  (max s.snd_cwnd 2, s)

end Linha

/-! ## Events and states used in the worked examples -/

/-- A rate sample reporting one lost packet. -/
def lossEvent : RateSample := { losses := 1, acked_sacked := 0 }

/-- A rate sample reporting one newly acknowledged packet and no loss. -/
def ackEvent : RateSample := { losses := 0, acked_sacked := 1 }

/-- The kernel's `TCP_INFINITE_SSTHRESH`, the host's slow-start threshold before
the first loss. -/
def TCP_INFINITE_SSTHRESH : Nat := 2147483647

namespace Expolin

/-- The statics as `expolin01.c` initialises them (lines 15-20), with the
socket fields `cw`, `ss`, `nx`. -/
def loadState (cw ss nx : Nat) : State :=
  { snd_cwnd := cw, snd_ssthresh := ss, snd_nxt := nx, start_time_ns := 0,
    recovery_mode := 0, recovery_point := 0, jBase := 1,
    snd_second_thresh := 200, drep := 1 }

end Expolin

namespace Linha

/-- The statics as `linha01.c` initialises them (lines 12-16), with the socket
fields `cw`, `ss`, `nx`. -/
def loadState (cw ss nx : Nat) : State :=
  { snd_cwnd := cw, snd_ssthresh := ss, snd_nxt := nx, start_time_ns := 0,
    recovery_mode := 0, recovery_point := 0, jBase := 1,
    snd_second_thresh := 200 }

end Linha

namespace Expolin

/-- The states `expolin01.c` can be in: the statics start as the file
initialises them, only the four callbacks change them, and between callbacks
the host may store any `u32` values in the socket fields. -/
inductive Reachable (hw : Nat → Nat → Nat) : State → Prop
  | load (cw ss nx : Nat) :
      cw < U32_SIZE → ss < U32_SIZE → nx < U32_SIZE → Reachable hw (loadState cw ss nx)
  | host (s : State) (cw ss nx : Nat) :
      Reachable hw s → cw < U32_SIZE → ss < U32_SIZE → nx < U32_SIZE →
      Reachable hw { s with snd_cwnd := cw, snd_ssthresh := ss, snd_nxt := nx }
  | init (s : State) (icw now : Nat) :
      Reachable hw s → icw < U32_SIZE → now < U64_SIZE → Reachable hw (simple_init icw now s)
  | ssthresh (s : State) (now : Nat) :
      Reachable hw s → now < U64_SIZE → Reachable hw (simple_ssthresh now s).2
  | cong_control (s : State) (now : Nat) (rs : RateSample) :
      Reachable hw s → now < U64_SIZE → Reachable hw (simple_cong_control hw now rs s)
  | undo (s : State) :
      Reachable hw s → Reachable hw (simple_undo_cwnd s).2

end Expolin

namespace Linha

/-- The host advances `snd_nxt` to `n` and `simple_cong_control` is then called
at time `n` with a loss report. -/
def lossAt (s : State) (n : Nat) : State :=
  simple_cong_control n lossEvent { s with snd_nxt := n }

end Linha

namespace Expolin

/-- Lines 88-96 of `simple_cong_control`: what the acknowledgment path does when
`recovery_mode` is 0, the slow-start branch if `snd_cwnd < snd_ssthresh` and the
congestion-avoidance branch otherwise. -/
def growth_branches (now : Nat) (s : State) : State :=
  let t := time_in_ms s.start_time_ns now
  if s.snd_cwnd < s.snd_ssthresh then
    let increment := u32 (2 * t * t * t)
    { s with snd_cwnd := u32 (s.snd_cwnd + max increment 2) }
  else
    let increment := u32 (s.snd_second_thresh + 2 * t)
    { s with snd_cwnd := max increment 1 }

/-- The state Scenario B leaves: loss accepted at time 7 on window 1000. -/
def scenarioB : State :=
  { snd_cwnd := 800, snd_ssthresh := 500, snd_nxt := 5000, start_time_ns := 7,
    recovery_mode := 1, recovery_point := 5000, jBase := 800,
    snd_second_thresh := 1000, drep := 200 }

/-- The state of Scenario E: recovery left, window 1000 not below `ssthresh`,
secondary threshold 1000, epoch 0. -/
def scenarioE : State :=
  { snd_cwnd := 1000, snd_ssthresh := 500, snd_nxt := 5000, start_time_ns := 0,
    recovery_mode := 0, recovery_point := 5000, jBase := 800,
    snd_second_thresh := 1000, drep := 200 }

end Expolin

namespace Linha

/-- Lines 69-77 of `simple_cong_control`: what the acknowledgment path does when
`recovery_mode` is 0. -/
def growth_branches (now : Nat) (s : State) : State :=
  let t := time_in_ms s.start_time_ns now
  if s.snd_cwnd < s.snd_ssthresh then
    let increment := u32 (2 * t * t * t)
    { s with snd_cwnd := u32 (s.snd_cwnd + max increment 2) }
  else
    let increment := u32 (s.snd_second_thresh + 2 * t)
    { s with snd_cwnd := max increment 1 }

/-- The state after a loss accepted at time 7 on window 1000. -/
def scenarioB : State :=
  { snd_cwnd := 900, snd_ssthresh := 500, snd_nxt := 5000, start_time_ns := 7,
    recovery_mode := 1, recovery_point := 5000, jBase := 900,
    snd_second_thresh := 1000 }

/-- The state of Scenario E: recovery left, window 1000 not below `ssthresh`,
secondary threshold 1000, epoch 0. -/
def scenarioE : State :=
  { snd_cwnd := 1000, snd_ssthresh := 500, snd_nxt := 5000, start_time_ns := 0,
    recovery_mode := 0, recovery_point := 5000, jBase := 900,
    snd_second_thresh := 1000 }

end Linha

/-- The C division `a / b` on `u32`; it has no result when `b` is 0. -/
def div32 (a b : Nat) : Option Nat :=
  if b = 0 then none else some (a / b)

namespace Expolin

/-- The function `expAdjust` (lines 23-33) with the division `t / k` as a step
that can fail: the result is `none` exactly when a division by zero is
evaluated. -/
def expAdjust_checked (hw : Nat → Nat → Nat) (t k L : Nat) : Option Nat :=
  if k = 0 then some 0
  else
    match div32 t k with
    | none => none
    | some scaled_time =>
      let scaled_exponent := shr32 hw FIXED_POINT_SCALE scaled_time
      let adjustment := sub32 FIXED_POINT_SCALE scaled_exponent
      some (u32 (L * adjustment) >>> 16)

/-- Lines 60-76 of `simple_cong_control`: the body of `if (rs->losses > 0)`. -/
def loss_handling (now : Nat) (s : State) : State :=
  if s.recovery_mode = 0 ∨ s.snd_nxt > s.recovery_point then
    let decrement := u32 (s.snd_cwnd * 2) / 10
    let cwnd := sub32 s.snd_cwnd decrement
    { s with
      recovery_mode := 1
      recovery_point := s.snd_nxt
      snd_second_thresh := s.snd_cwnd
      snd_ssthresh := s.snd_cwnd / 2
      snd_cwnd := cwnd
      jBase := cwnd
      start_time_ns := now
      drep := decrement }
  else s

/-- Lines 78-96 of `simple_cong_control`: the body of
`else if (rs->acked_sacked)`. -/
def ack_handling (hw : Nat → Nat → Nat) (now : Nat) (s : State) : State :=
  let t := time_in_ms s.start_time_ns now
  if s.recovery_mode ≠ 0 then
    let increment := u32 (s.jBase + expAdjust hw t 4 s.drep + 1)
    let cwnd := max increment 1
    if cwnd ≥ s.snd_second_thresh then
      { s with snd_cwnd := cwnd, recovery_mode := 0 }
    else
      { s with snd_cwnd := cwnd }
  else growth_branches now s

/-- The fields the two modules have in common: an `expolin01.c` state without
`drep`. -/
def toLinha (s : State) : Linha.State :=
  { snd_cwnd := s.snd_cwnd, snd_ssthresh := s.snd_ssthresh, snd_nxt := s.snd_nxt,
    start_time_ns := s.start_time_ns, recovery_mode := s.recovery_mode,
    recovery_point := s.recovery_point, jBase := s.jBase,
    snd_second_thresh := s.snd_second_thresh }

/-- A sequence of `simple_cong_control` calls, each with its clock value and
rate sample, with no other callback and no host write in between. -/
def cong_control_calls (hw : Nat → Nat → Nat) (calls : List (Nat × RateSample))
    (s : State) : State :=
  calls.foldl (fun st c => simple_cong_control hw c.1 c.2 st) s

end Expolin

namespace Linha

/-- Lines 44-57 of `simple_cong_control`: the body of `if (rs->losses > 0)`. -/
def loss_handling (now : Nat) (s : State) : State :=
  if s.recovery_mode = 0 ∨ s.snd_nxt > s.recovery_point then
    let cwnd := u32 (s.snd_cwnd * 9) / 10
    { s with
      recovery_mode := 1
      recovery_point := s.snd_nxt
      snd_second_thresh := s.snd_cwnd
      snd_ssthresh := s.snd_cwnd / 2
      snd_cwnd := cwnd
      jBase := cwnd
      start_time_ns := now }
  else s

/-- Lines 59-77 of `simple_cong_control`: the body of
`else if (rs->acked_sacked)`. -/
def ack_handling (now : Nat) (s : State) : State :=
  let t := time_in_ms s.start_time_ns now
  if s.recovery_mode ≠ 0 then
    let increment := u32 (s.jBase + 1 * t)
    let cwnd := max increment 1
    if cwnd ≥ s.snd_second_thresh then
      { s with snd_cwnd := cwnd, recovery_mode := 0 }
    else
      { s with snd_cwnd := cwnd }
  else growth_branches now s

end Linha

/-! ## Arithmetic lemmas -/

theorem u32_of_lt {x : Nat} (h : x < U32_SIZE) : u32 x = x :=
  Nat.mod_eq_of_lt h

theorem u32_lt (x : Nat) : u32 x < U32_SIZE :=
  Nat.mod_lt _ (by decide)

theorem sub32_of_le {a b : Nat} (hb : b ≤ a) (ha : a < U32_SIZE) :
    sub32 a b = a - b := by
  unfold sub32 U32_SIZE at *
  omega

theorem time_in_ms_lt (a b : Nat) : time_in_ms a b < U32_SIZE :=
  u32_lt _

/-! ## Loss handling -/

/-- C1 (amended): in the exponential variant, when recovery is inactive or
`snd_nxt` has passed the recovery point, and the pre-loss window `c` satisfies
`c * 2 < 2^32`, a call with `losses > 0` makes recovery active, sets the
recovery point to `snd_nxt`, the secondary threshold to `c`, `ssthresh` to
`c / 2`, the decrement to `c * 2 / 10`, the window and the baseline to
`c - c * 2 / 10`, and the epoch to `now`; nothing else changes. -/
theorem Expolin.accepted_loss (hw : Nat → Nat → Nat) (now : Nat) (rs : RateSample)
    (s : Expolin.State) (hl : 0 < rs.losses)
    (hr : s.recovery_mode = 0 ∨ s.snd_nxt > s.recovery_point)
    (hc : s.snd_cwnd * 2 < U32_SIZE) :
    Expolin.simple_cong_control hw now rs s =
      { s with
        recovery_mode := 1
        recovery_point := s.snd_nxt
        snd_second_thresh := s.snd_cwnd
        snd_ssthresh := s.snd_cwnd / 2
        snd_cwnd := s.snd_cwnd - s.snd_cwnd * 2 / 10
        jBase := s.snd_cwnd - s.snd_cwnd * 2 / 10
        start_time_ns := now
        drep := s.snd_cwnd * 2 / 10 } := by
  have hd : s.snd_cwnd * 2 / 10 ≤ s.snd_cwnd := by omega
  have hlt : s.snd_cwnd < U32_SIZE := by omega
  simp only [Expolin.simple_cong_control, gt_iff_lt, hl, hr, if_true, u32_of_lt hc,
    sub32_of_le hd hlt]

/-- Scenario B: the window 1000 at module load, loss observed at time 7. -/
theorem Expolin.accepted_loss_witness :
    (0 < lossEvent.losses ∧ (Expolin.loadState 1000 TCP_INFINITE_SSTHRESH 5000).recovery_mode = 0) ∧
    Expolin.simple_cong_control maskedShift 7 lossEvent
        (Expolin.loadState 1000 TCP_INFINITE_SSTHRESH 5000) =
      { snd_cwnd := 800, snd_ssthresh := 500, snd_nxt := 5000, start_time_ns := 7,
        recovery_mode := 1, recovery_point := 5000, jBase := 800,
        snd_second_thresh := 1000, drep := 200 } :=
  ⟨by decide,
   Expolin.accepted_loss maskedShift 7 lossEvent
     (Expolin.loadState 1000 TCP_INFINITE_SSTHRESH 5000) (by decide) (Or.inl rfl) (by decide)⟩

/-- C1 as stated fails: with the pre-loss window `2^31` the product `c * 2`
wraps to 0, so the decrement is 0 instead of 429496729 and the window is not
reduced. -/
theorem Expolin.doubling_wraps_on_loss :
    0 < lossEvent.losses ∧
    (Expolin.loadState 2147483648 TCP_INFINITE_SSTHRESH 5000).recovery_mode = 0 ∧
    (Expolin.loadState 2147483648 TCP_INFINITE_SSTHRESH 5000).snd_cwnd * 2 / 10 = 429496729 ∧
    (Expolin.simple_cong_control maskedShift 7 lossEvent
      (Expolin.loadState 2147483648 TCP_INFINITE_SSTHRESH 5000)).drep = 0 ∧
    (Expolin.simple_cong_control maskedShift 7 lossEvent
      (Expolin.loadState 2147483648 TCP_INFINITE_SSTHRESH 5000)).snd_cwnd = 2147483648 ∧
    (Expolin.simple_cong_control maskedShift 7 lossEvent
      (Expolin.loadState 2147483648 TCP_INFINITE_SSTHRESH 5000)).drep ≠
      (Expolin.loadState 2147483648 TCP_INFINITE_SSTHRESH 5000).snd_cwnd * 2 / 10 := by
  decide

/-- C2: in both variants, a call with `losses > 0` made while recovery is
active and `snd_nxt` has not passed the recovery point returns the state
unchanged. -/
theorem loss_reentry_suppressed :
    (∀ (hw : Nat → Nat → Nat) (now : Nat) (rs : RateSample) (s : Expolin.State),
      0 < rs.losses → s.recovery_mode ≠ 0 → s.snd_nxt ≤ s.recovery_point →
      Expolin.simple_cong_control hw now rs s = s) ∧
    (∀ (now : Nat) (rs : RateSample) (s : Linha.State),
      0 < rs.losses → s.recovery_mode ≠ 0 → s.snd_nxt ≤ s.recovery_point →
      Linha.simple_cong_control now rs s = s) := by
  constructor
  · intro hw now rs s hl hr hn
    simp [Expolin.simple_cong_control, hl, hr, Nat.not_lt.mpr hn]
  · intro now rs s hl hr hn
    simp [Linha.simple_cong_control, hl, hr, Nat.not_lt.mpr hn]

/-- A second loss report after Scenario B, with `snd_nxt` still 5000, in either
variant. -/
theorem loss_reentry_suppressed_witness :
    Expolin.simple_cong_control maskedShift 99 lossEvent
        { snd_cwnd := 800, snd_ssthresh := 500, snd_nxt := 5000, start_time_ns := 7,
          recovery_mode := 1, recovery_point := 5000, jBase := 800,
          snd_second_thresh := 1000, drep := 200 } =
      { snd_cwnd := 800, snd_ssthresh := 500, snd_nxt := 5000, start_time_ns := 7,
        recovery_mode := 1, recovery_point := 5000, jBase := 800,
        snd_second_thresh := 1000, drep := 200 } ∧
    Linha.simple_cong_control 99 lossEvent
        { snd_cwnd := 900, snd_ssthresh := 500, snd_nxt := 5000, start_time_ns := 7,
          recovery_mode := 1, recovery_point := 5000, jBase := 900,
          snd_second_thresh := 1000 } =
      { snd_cwnd := 900, snd_ssthresh := 500, snd_nxt := 5000, start_time_ns := 7,
        recovery_mode := 1, recovery_point := 5000, jBase := 900,
        snd_second_thresh := 1000 } :=
  ⟨loss_reentry_suppressed.1 maskedShift 99 lossEvent _ (by decide) (by decide) (by decide),
   loss_reentry_suppressed.2 99 lossEvent _ (by decide) (by decide) (by decide)⟩

/-- C3 (the code at the failing input): `simple_ssthresh` called with window
1000 while not in recovery returns 500 and enters recovery, but the window, the
secondary threshold and the baseline keep their old values 1000, 200 and 1; no
decrement is applied, in either variant. -/
theorem ssthresh_skips_backoff :
    Expolin.simple_ssthresh 7 (Expolin.loadState 1000 TCP_INFINITE_SSTHRESH 5000) =
      (500,
       { snd_cwnd := 1000, snd_ssthresh := TCP_INFINITE_SSTHRESH, snd_nxt := 5000,
         start_time_ns := 7, recovery_mode := 1, recovery_point := 5000, jBase := 1,
         snd_second_thresh := 200, drep := 1 }) ∧
    Linha.simple_ssthresh 7 (Linha.loadState 1000 TCP_INFINITE_SSTHRESH 5000) =
      (500,
       { snd_cwnd := 1000, snd_ssthresh := TCP_INFINITE_SSTHRESH, snd_nxt := 5000,
         start_time_ns := 7, recovery_mode := 1, recovery_point := 5000, jBase := 1,
         snd_second_thresh := 200 }) := by
  constructor <;> rfl

/-! ## Acknowledgment handling -/

theorem Expolin.expAdjust_lt (hw : Nat → Nat → Nat) (t k L : Nat) :
    Expolin.expAdjust hw t k L < 65536 := by
  unfold Expolin.expAdjust
  split_ifs
  · decide
  · simp only [Nat.shiftRight_eq_div_pow]
    have := u32_lt (L * sub32 Expolin.FIXED_POINT_SCALE
      (shr32 hw Expolin.FIXED_POINT_SCALE (t / k)))
    unfold U32_SIZE at this
    omega

theorem Expolin.loss_baseline_le {c : Nat} (hc : c < U32_SIZE) :
    sub32 c (u32 (c * 2) / 10) ≤ 3865470566 := by
  unfold sub32 u32 U32_SIZE at *
  rcases Nat.lt_or_ge c 2147483648 with h | h
  · have e1 : c * 2 % 4294967296 = c * 2 := Nat.mod_eq_of_lt (by omega)
    rw [e1]
    omega
  · have e1 : c * 2 % 4294967296 = c * 2 - 4294967296 := by omega
    rw [e1]
    omega

theorem Expolin.reachable_bounds {hw : Nat → Nat → Nat} {s : Expolin.State}
    (h : Expolin.Reachable hw s) : s.snd_cwnd < U32_SIZE ∧ s.jBase ≤ 3865470566 := by
  induction h with
  | load cw ss nx hcw _ _ => exact ⟨hcw, by simp [Expolin.loadState]⟩
  | host s cw ss nx _ hcw _ _ ih => exact ⟨hcw, ih.2⟩
  | init s icw now _ hicw _ ih => exact ⟨hicw, ih.2⟩
  | ssthresh s now _ _ ih => exact ih
  | undo s _ ih => exact ih
  | cong_control s now rs _ _ ih =>
    obtain ⟨h1, h2⟩ := ih
    simp only [Expolin.simple_cong_control]
    split_ifs
    · exact ⟨Nat.mod_lt _ (by decide), Expolin.loss_baseline_le h1⟩
    · exact ⟨h1, h2⟩
    · exact ⟨Nat.max_lt.mpr ⟨u32_lt _, by decide⟩, h2⟩
    · exact ⟨Nat.max_lt.mpr ⟨u32_lt _, by decide⟩, h2⟩
    · exact ⟨u32_lt _, h2⟩
    · exact ⟨Nat.max_lt.mpr ⟨u32_lt _, by decide⟩, h2⟩
    · exact ⟨h1, h2⟩

/-- C4: in the exponential variant, in every reachable state with recovery
active, a call with `losses = 0` and `acked_sacked > 0` at elapsed time
`t = time_in_ms start_time_ns now` sets the window to
`max (jBase + expAdjust t 4 drep + 1) 1`. -/
theorem Expolin.recovery_growth (hw : Nat → Nat → Nat) (now : Nat) (rs : RateSample)
    (s : Expolin.State) (hs : Expolin.Reachable hw s)
    (hl : rs.losses = 0) (ha : 0 < rs.acked_sacked) (hr : s.recovery_mode ≠ 0) :
    (Expolin.simple_cong_control hw now rs s).snd_cwnd =
      max (s.jBase + Expolin.expAdjust hw (time_in_ms s.start_time_ns now) 4 s.drep + 1) 1 := by
  have hj := (Expolin.reachable_bounds hs).2
  have he := Expolin.expAdjust_lt hw (time_in_ms s.start_time_ns now) 4 s.drep
  have hu : u32 (s.jBase + Expolin.expAdjust hw (time_in_ms s.start_time_ns now) 4 s.drep + 1)
      = s.jBase + Expolin.expAdjust hw (time_in_ms s.start_time_ns now) 4 s.drep + 1 := by
    apply u32_of_lt
    unfold U32_SIZE
    omega
  have ha0 : rs.acked_sacked ≠ 0 := by omega
  unfold Expolin.simple_cong_control
  simp only [hl, gt_iff_lt, lt_self_iff_false, if_false, ne_eq, ha0, not_false_eq_true,
    if_true, hr, hu]
  split_ifs <;> rfl

/-- Scenario C: after Scenario B (loss at time 7 on window 1000), an
acknowledgment 4 ms later; `expAdjust 4 4 200 = 100` and the window is 901. -/
theorem Expolin.recovery_growth_witness :
    (ackEvent.losses = 0 ∧ 0 < ackEvent.acked_sacked ∧
      (Expolin.simple_cong_control maskedShift 7 lossEvent
        (Expolin.loadState 1000 TCP_INFINITE_SSTHRESH 5000)).recovery_mode ≠ 0 ∧
      time_in_ms 7 4000007 = 4 ∧ Expolin.expAdjust maskedShift 4 4 200 = 100) ∧
    (Expolin.simple_cong_control maskedShift 4000007 ackEvent
      (Expolin.simple_cong_control maskedShift 7 lossEvent
        (Expolin.loadState 1000 TCP_INFINITE_SSTHRESH 5000))).snd_cwnd = 901 :=
  ⟨by decide,
   Expolin.recovery_growth maskedShift 4000007 ackEvent
     (Expolin.simple_cong_control maskedShift 7 lossEvent
        (Expolin.loadState 1000 TCP_INFINITE_SSTHRESH 5000))
     (Expolin.Reachable.cong_control _ 7 lossEvent
        (Expolin.Reachable.load 1000 TCP_INFINITE_SSTHRESH 5000
          (by decide) (by decide) (by decide)) (by decide))
     (by decide) (by decide) (by decide)⟩

theorem Expolin.ack_outside_recovery (hw : Nat → Nat → Nat) (now : Nat) (rs : RateSample)
    (s : Expolin.State) (hl : rs.losses = 0) (ha : rs.acked_sacked ≠ 0)
    (hr : s.recovery_mode = 0) :
    Expolin.simple_cong_control hw now rs s = Expolin.growth_branches now s := by
  simp [Expolin.simple_cong_control, Expolin.growth_branches, hl, ha, hr]

theorem Linha.linear_ack_outside_recovery (now : Nat) (rs : RateSample)
    (s : Linha.State) (hl : rs.losses = 0) (ha : rs.acked_sacked ≠ 0)
    (hr : s.recovery_mode = 0) :
    Linha.simple_cong_control now rs s = Linha.growth_branches now s := by
  simp [Linha.simple_cong_control, Linha.growth_branches, hl, ha, hr]

theorem Expolin.ack_in_recovery (hw : Nat → Nat → Nat) (now : Nat) (rs : RateSample)
    (s : Expolin.State) (hl : rs.losses = 0) (ha : rs.acked_sacked ≠ 0)
    (hr : s.recovery_mode ≠ 0) :
    Expolin.simple_cong_control hw now rs s =
      if s.snd_second_thresh ≤
          max (u32 (s.jBase + Expolin.expAdjust hw (time_in_ms s.start_time_ns now) 4 s.drep + 1)) 1
      then { s with
             snd_cwnd := max (u32 (s.jBase +
               Expolin.expAdjust hw (time_in_ms s.start_time_ns now) 4 s.drep + 1)) 1
             recovery_mode := 0 }
      else { s with
             snd_cwnd := max (u32 (s.jBase +
               Expolin.expAdjust hw (time_in_ms s.start_time_ns now) 4 s.drep + 1)) 1 } := by
  simp [Expolin.simple_cong_control, hl, ha, hr]

theorem Linha.linear_ack_in_recovery (now : Nat) (rs : RateSample)
    (s : Linha.State) (hl : rs.losses = 0) (ha : rs.acked_sacked ≠ 0)
    (hr : s.recovery_mode ≠ 0) :
    Linha.simple_cong_control now rs s =
      if s.snd_second_thresh ≤ max (u32 (s.jBase + 1 * time_in_ms s.start_time_ns now)) 1
      then { s with
             snd_cwnd := max (u32 (s.jBase + 1 * time_in_ms s.start_time_ns now)) 1
             recovery_mode := 0 }
      else { s with
             snd_cwnd := max (u32 (s.jBase + 1 * time_in_ms s.start_time_ns now)) 1 } := by
  simp [Linha.simple_cong_control, hl, ha, hr]

/-- C5: in both variants, for an acknowledgment (`losses = 0`,
`acked_sacked > 0`) processed with recovery active: if the window it produces
is at least the secondary threshold, the call returns the state with exactly
that window and `recovery_mode = 0` (the window is not computed a second time),
and the next acknowledgment applied to that state is handled by the slow-start
or congestion-avoidance branch selected by `snd_cwnd < snd_ssthresh`; if the
window produced is below the secondary threshold, recovery stays active. -/
theorem recovery_exit_threshold :
    (∀ (hw : Nat → Nat → Nat) (now : Nat) (rs : RateSample) (s : Expolin.State),
      rs.losses = 0 → 0 < rs.acked_sacked → s.recovery_mode ≠ 0 →
      (s.snd_second_thresh ≤ (Expolin.simple_cong_control hw now rs s).snd_cwnd →
        Expolin.simple_cong_control hw now rs s =
          { s with
            snd_cwnd := max (u32 (s.jBase +
              Expolin.expAdjust hw (time_in_ms s.start_time_ns now) 4 s.drep + 1)) 1
            recovery_mode := 0 } ∧
        ∀ (now2 : Nat) (rs2 : RateSample), rs2.losses = 0 → 0 < rs2.acked_sacked →
          Expolin.simple_cong_control hw now2 rs2 (Expolin.simple_cong_control hw now rs s) =
            Expolin.growth_branches now2 (Expolin.simple_cong_control hw now rs s)) ∧
      ((Expolin.simple_cong_control hw now rs s).snd_cwnd < s.snd_second_thresh →
        (Expolin.simple_cong_control hw now rs s).recovery_mode ≠ 0)) ∧
    (∀ (now : Nat) (rs : RateSample) (s : Linha.State),
      rs.losses = 0 → 0 < rs.acked_sacked → s.recovery_mode ≠ 0 →
      (s.snd_second_thresh ≤ (Linha.simple_cong_control now rs s).snd_cwnd →
        Linha.simple_cong_control now rs s =
          { s with
            snd_cwnd := max (u32 (s.jBase + 1 * time_in_ms s.start_time_ns now)) 1
            recovery_mode := 0 } ∧
        ∀ (now2 : Nat) (rs2 : RateSample), rs2.losses = 0 → 0 < rs2.acked_sacked →
          Linha.simple_cong_control now2 rs2 (Linha.simple_cong_control now rs s) =
            Linha.growth_branches now2 (Linha.simple_cong_control now rs s)) ∧
      ((Linha.simple_cong_control now rs s).snd_cwnd < s.snd_second_thresh →
        (Linha.simple_cong_control now rs s).recovery_mode ≠ 0)) := by
  constructor
  · intro hw now rs s hl ha hr
    have e := Expolin.ack_in_recovery hw now rs s hl (Nat.pos_iff_ne_zero.mp ha) hr
    by_cases h : s.snd_second_thresh ≤
        max (u32 (s.jBase + Expolin.expAdjust hw (time_in_ms s.start_time_ns now) 4 s.drep + 1)) 1
    · rw [if_pos h] at e
      rw [e]
      refine ⟨fun _ => ⟨rfl, fun now2 rs2 hl2 ha2 => ?_⟩, fun hlt => ?_⟩
      · exact Expolin.ack_outside_recovery hw now2 rs2 _ hl2 (Nat.pos_iff_ne_zero.mp ha2) rfl
      · exact absurd h (Nat.not_le.mpr hlt)
    · rw [if_neg h] at e
      rw [e]
      refine ⟨fun hge => absurd hge h, fun _ => hr⟩
  · intro now rs s hl ha hr
    have e := Linha.linear_ack_in_recovery now rs s hl (Nat.pos_iff_ne_zero.mp ha) hr
    by_cases h : s.snd_second_thresh ≤ max (u32 (s.jBase + 1 * time_in_ms s.start_time_ns now)) 1
    · rw [if_pos h] at e
      rw [e]
      refine ⟨fun _ => ⟨rfl, fun now2 rs2 hl2 ha2 => ?_⟩, fun hlt => ?_⟩
      · exact Linha.linear_ack_outside_recovery now2 rs2 _ hl2 (Nat.pos_iff_ne_zero.mp ha2) rfl
      · exact absurd h (Nat.not_le.mpr hlt)
    · rw [if_neg h] at e
      rw [e]
      refine ⟨fun hge => absurd hge h, fun _ => hr⟩

/-- After Scenario B, an acknowledgment at 68 ms (exponential) or 100 ms
(linear) lifts the window to 1001 or 1000, recovery ends, and the following
acknowledgment (at 78 ms or 110 ms) is handled by congestion avoidance; an
acknowledgment at 4 ms leaves recovery active. -/
theorem recovery_exit_threshold_witness :
    (Expolin.simple_cong_control maskedShift 68000007 ackEvent Expolin.scenarioB =
        { Expolin.scenarioB with snd_cwnd := 1001, recovery_mode := 0 } ∧
      Expolin.simple_cong_control maskedShift 78000007 ackEvent
          (Expolin.simple_cong_control maskedShift 68000007 ackEvent Expolin.scenarioB) =
        Expolin.growth_branches 78000007
          (Expolin.simple_cong_control maskedShift 68000007 ackEvent Expolin.scenarioB) ∧
      (Expolin.simple_cong_control maskedShift 4000007 ackEvent
        Expolin.scenarioB).recovery_mode ≠ 0) ∧
    (Linha.simple_cong_control 100000007 ackEvent Linha.scenarioB =
        { Linha.scenarioB with snd_cwnd := 1000, recovery_mode := 0 } ∧
      Linha.simple_cong_control 110000007 ackEvent
          (Linha.simple_cong_control 100000007 ackEvent Linha.scenarioB) =
        Linha.growth_branches 110000007
          (Linha.simple_cong_control 100000007 ackEvent Linha.scenarioB) ∧
      (Linha.simple_cong_control 4000007 ackEvent Linha.scenarioB).recovery_mode ≠ 0) :=
  ⟨⟨((recovery_exit_threshold.1 maskedShift 68000007 ackEvent Expolin.scenarioB
        rfl (by decide) (by decide)).1 (by decide)).1,
     ((recovery_exit_threshold.1 maskedShift 68000007 ackEvent Expolin.scenarioB
        rfl (by decide) (by decide)).1 (by decide)).2 78000007 ackEvent rfl (by decide),
     (recovery_exit_threshold.1 maskedShift 4000007 ackEvent Expolin.scenarioB
        rfl (by decide) (by decide)).2 (by decide)⟩,
   ⟨((recovery_exit_threshold.2 100000007 ackEvent Linha.scenarioB
        rfl (by decide) (by decide)).1 (by decide)).1,
     ((recovery_exit_threshold.2 100000007 ackEvent Linha.scenarioB
        rfl (by decide) (by decide)).1 (by decide)).2 110000007 ackEvent rfl (by decide),
     (recovery_exit_threshold.2 4000007 ackEvent Linha.scenarioB
        rfl (by decide) (by decide)).2 (by decide)⟩⟩

theorem cube_eq (t : Nat) : 2 * t * t * t = 2 * t ^ 3 := by ring

/-- C6 (amended): in both variants, with recovery inactive and
`snd_cwnd < snd_ssthresh`, an acknowledgment at elapsed time `t` for which
neither `2 * t^3` nor `snd_cwnd + max (2 * t^3) 2` reaches `2^32` sets the
window to `snd_cwnd + max (2 * t^3) 2`, changes nothing else, and so raises the
window by at least 2. -/
theorem slow_start_growth :
    (∀ (hw : Nat → Nat → Nat) (now : Nat) (rs : RateSample) (s : Expolin.State),
      rs.losses = 0 → 0 < rs.acked_sacked → s.recovery_mode = 0 →
      s.snd_cwnd < s.snd_ssthresh →
      2 * time_in_ms s.start_time_ns now ^ 3 < U32_SIZE →
      s.snd_cwnd + max (2 * time_in_ms s.start_time_ns now ^ 3) 2 < U32_SIZE →
      Expolin.simple_cong_control hw now rs s =
          { s with snd_cwnd := s.snd_cwnd + max (2 * time_in_ms s.start_time_ns now ^ 3) 2 } ∧
        s.snd_cwnd + 2 ≤ (Expolin.simple_cong_control hw now rs s).snd_cwnd) ∧
    (∀ (now : Nat) (rs : RateSample) (s : Linha.State),
      rs.losses = 0 → 0 < rs.acked_sacked → s.recovery_mode = 0 →
      s.snd_cwnd < s.snd_ssthresh →
      2 * time_in_ms s.start_time_ns now ^ 3 < U32_SIZE →
      s.snd_cwnd + max (2 * time_in_ms s.start_time_ns now ^ 3) 2 < U32_SIZE →
      Linha.simple_cong_control now rs s =
          { s with snd_cwnd := s.snd_cwnd + max (2 * time_in_ms s.start_time_ns now ^ 3) 2 } ∧
        s.snd_cwnd + 2 ≤ (Linha.simple_cong_control now rs s).snd_cwnd) := by
  constructor
  · intro hw now rs s hl ha hr hss h3 hsum
    have e : Expolin.simple_cong_control hw now rs s =
        { s with snd_cwnd := s.snd_cwnd + max (2 * time_in_ms s.start_time_ns now ^ 3) 2 } := by
      rw [Expolin.ack_outside_recovery hw now rs s hl (Nat.pos_iff_ne_zero.mp ha) hr]
      simp only [Expolin.growth_branches, hss, if_true, cube_eq, u32_of_lt h3, u32_of_lt hsum]
    rw [e]
    exact ⟨rfl, Nat.add_le_add_left (le_max_right _ _) _⟩
  · intro now rs s hl ha hr hss h3 hsum
    have e : Linha.simple_cong_control now rs s =
        { s with snd_cwnd := s.snd_cwnd + max (2 * time_in_ms s.start_time_ns now ^ 3) 2 } := by
      rw [Linha.linear_ack_outside_recovery now rs s hl (Nat.pos_iff_ne_zero.mp ha) hr]
      simp only [Linha.growth_branches, hss, if_true, cube_eq, u32_of_lt h3, u32_of_lt hsum]
    rw [e]
    exact ⟨rfl, Nat.add_le_add_left (le_max_right _ _) _⟩

/-- Scenario D: window 10 below `ssthresh`, acknowledgment at 3 ms adds 54; at
0 ms it adds 2. -/
theorem slow_start_growth_witness :
    (time_in_ms 0 3000000 = 3 ∧ time_in_ms 0 0 = 0) ∧
    (Expolin.simple_cong_control maskedShift 3000000 ackEvent
        (Expolin.loadState 10 TCP_INFINITE_SSTHRESH 5000) =
      { Expolin.loadState 10 TCP_INFINITE_SSTHRESH 5000 with snd_cwnd := 10 + 54 }) ∧
    (Linha.simple_cong_control 3000000 ackEvent
        (Linha.loadState 10 TCP_INFINITE_SSTHRESH 5000) =
      { Linha.loadState 10 TCP_INFINITE_SSTHRESH 5000 with snd_cwnd := 10 + 54 }) ∧
    (Expolin.simple_cong_control maskedShift 0 ackEvent
        (Expolin.loadState 10 TCP_INFINITE_SSTHRESH 5000) =
      { Expolin.loadState 10 TCP_INFINITE_SSTHRESH 5000 with snd_cwnd := 10 + 2 }) :=
  ⟨by decide,
   (slow_start_growth.1 maskedShift 3000000 ackEvent
      (Expolin.loadState 10 TCP_INFINITE_SSTHRESH 5000)
      rfl (by decide) rfl (by decide) (by decide) (by decide)).1,
   (slow_start_growth.2 3000000 ackEvent
      (Linha.loadState 10 TCP_INFINITE_SSTHRESH 5000)
      rfl (by decide) rfl (by decide) (by decide) (by decide)).1,
   (slow_start_growth.1 maskedShift 0 ackEvent
      (Expolin.loadState 10 TCP_INFINITE_SSTHRESH 5000)
      rfl (by decide) rfl (by decide) (by decide) (by decide)).1⟩

/-- C6 as stated fails: at elapsed time 2048 ms the product `2 * t^3 = 2^34`
wraps to 0 in 32 bits, so the window 10 becomes 12, not `10 + 2^34`, in either
variant. -/
theorem slow_start_cube_wraps :
    ackEvent.losses = 0 ∧ 0 < ackEvent.acked_sacked ∧
    (Expolin.loadState 10 TCP_INFINITE_SSTHRESH 5000).recovery_mode = 0 ∧
    (Expolin.loadState 10 TCP_INFINITE_SSTHRESH 5000).snd_cwnd <
      (Expolin.loadState 10 TCP_INFINITE_SSTHRESH 5000).snd_ssthresh ∧
    time_in_ms 0 2048000000 = 2048 ∧
    (Expolin.simple_cong_control maskedShift 2048000000 ackEvent
      (Expolin.loadState 10 TCP_INFINITE_SSTHRESH 5000)).snd_cwnd = 12 ∧
    (Linha.simple_cong_control 2048000000 ackEvent
      (Linha.loadState 10 TCP_INFINITE_SSTHRESH 5000)).snd_cwnd = 12 ∧
    (Expolin.simple_cong_control maskedShift 2048000000 ackEvent
      (Expolin.loadState 10 TCP_INFINITE_SSTHRESH 5000)).snd_cwnd ≠
      10 + max (2 * 2048 ^ 3) 2 := by
  decide

/-- C7 (amended): in both variants, with recovery inactive and
`snd_cwnd ≥ snd_ssthresh`, an acknowledgment at elapsed time `t` with
`snd_second_thresh + 2 * t < 2^32` sets the window to
`max (snd_second_thresh + 2 * t) 1` and changes nothing else; and for every
`t` the new window does not depend on the previous one: replacing the window by
any other value `c ≥ snd_ssthresh` gives the same new window. -/
theorem congestion_avoidance_assignment :
    (∀ (hw : Nat → Nat → Nat) (now : Nat) (rs : RateSample) (s : Expolin.State),
      rs.losses = 0 → 0 < rs.acked_sacked → s.recovery_mode = 0 →
      s.snd_ssthresh ≤ s.snd_cwnd →
      (s.snd_second_thresh + 2 * time_in_ms s.start_time_ns now < U32_SIZE →
        Expolin.simple_cong_control hw now rs s =
          { s with
            snd_cwnd := max (s.snd_second_thresh + 2 * time_in_ms s.start_time_ns now) 1 }) ∧
      (∀ c : Nat, s.snd_ssthresh ≤ c →
        (Expolin.simple_cong_control hw now rs { s with snd_cwnd := c }).snd_cwnd =
          (Expolin.simple_cong_control hw now rs s).snd_cwnd)) ∧
    (∀ (now : Nat) (rs : RateSample) (s : Linha.State),
      rs.losses = 0 → 0 < rs.acked_sacked → s.recovery_mode = 0 →
      s.snd_ssthresh ≤ s.snd_cwnd →
      (s.snd_second_thresh + 2 * time_in_ms s.start_time_ns now < U32_SIZE →
        Linha.simple_cong_control now rs s =
          { s with
            snd_cwnd := max (s.snd_second_thresh + 2 * time_in_ms s.start_time_ns now) 1 }) ∧
      (∀ c : Nat, s.snd_ssthresh ≤ c →
        (Linha.simple_cong_control now rs { s with snd_cwnd := c }).snd_cwnd =
          (Linha.simple_cong_control now rs s).snd_cwnd)) := by
  constructor
  · intro hw now rs s hl ha hr hca
    have ha0 := Nat.pos_iff_ne_zero.mp ha
    refine ⟨fun hb => ?_, fun c hc => ?_⟩
    · rw [Expolin.ack_outside_recovery hw now rs s hl ha0 hr]
      simp only [Expolin.growth_branches, Nat.not_lt.mpr hca, if_false, u32_of_lt hb]
    · rw [Expolin.ack_outside_recovery hw now rs s hl ha0 hr,
        Expolin.ack_outside_recovery hw now rs { s with snd_cwnd := c } hl ha0 hr]
      simp only [Expolin.growth_branches, Nat.not_lt.mpr hca, Nat.not_lt.mpr hc, if_false]
  · intro now rs s hl ha hr hca
    have ha0 := Nat.pos_iff_ne_zero.mp ha
    refine ⟨fun hb => ?_, fun c hc => ?_⟩
    · rw [Linha.linear_ack_outside_recovery now rs s hl ha0 hr]
      simp only [Linha.growth_branches, Nat.not_lt.mpr hca, if_false, u32_of_lt hb]
    · rw [Linha.linear_ack_outside_recovery now rs s hl ha0 hr,
        Linha.linear_ack_outside_recovery now rs { s with snd_cwnd := c } hl ha0 hr]
      simp only [Linha.growth_branches, Nat.not_lt.mpr hca, Nat.not_lt.mpr hc, if_false]

/-- Scenario E: secondary threshold 1000, acknowledgment at 10 ms gives the
window 1020, also when the previous window is 2000 instead of 1000. -/
theorem congestion_avoidance_assignment_witness :
    time_in_ms 0 10000000 = 10 ∧
    Expolin.simple_cong_control maskedShift 10000000 ackEvent Expolin.scenarioE =
      { Expolin.scenarioE with snd_cwnd := 1020 } ∧
    (Expolin.simple_cong_control maskedShift 10000000 ackEvent
      { Expolin.scenarioE with snd_cwnd := 2000 }).snd_cwnd =
      (Expolin.simple_cong_control maskedShift 10000000 ackEvent Expolin.scenarioE).snd_cwnd ∧
    Linha.simple_cong_control 10000000 ackEvent Linha.scenarioE =
      { Linha.scenarioE with snd_cwnd := 1020 } ∧
    (Linha.simple_cong_control 10000000 ackEvent
      { Linha.scenarioE with snd_cwnd := 2000 }).snd_cwnd =
      (Linha.simple_cong_control 10000000 ackEvent Linha.scenarioE).snd_cwnd :=
  ⟨by decide,
   (congestion_avoidance_assignment.1 maskedShift 10000000 ackEvent Expolin.scenarioE
      rfl (by decide) rfl (by decide)).1 (by decide),
   (congestion_avoidance_assignment.1 maskedShift 10000000 ackEvent Expolin.scenarioE
      rfl (by decide) rfl (by decide)).2 2000 (by decide),
   (congestion_avoidance_assignment.2 10000000 ackEvent Linha.scenarioE
      rfl (by decide) rfl (by decide)).1 (by decide),
   (congestion_avoidance_assignment.2 10000000 ackEvent Linha.scenarioE
      rfl (by decide) rfl (by decide)).2 2000 (by decide)⟩

/-- C7 as stated fails: at elapsed time `2^31` ms the term `2 * t` wraps to 0
in 32 bits, so with secondary threshold 1000 the new window is 1000, not
`max (1000 + 2 * 2^31) 1`, in either variant. -/
theorem congestion_avoidance_wraps :
    ackEvent.losses = 0 ∧ 0 < ackEvent.acked_sacked ∧
    Expolin.scenarioE.recovery_mode = 0 ∧
    Expolin.scenarioE.snd_ssthresh ≤ Expolin.scenarioE.snd_cwnd ∧
    Expolin.scenarioE.snd_second_thresh = 1000 ∧
    time_in_ms 0 2147483648000000 = 2147483648 ∧
    (Expolin.simple_cong_control maskedShift 2147483648000000 ackEvent
      Expolin.scenarioE).snd_cwnd = 1000 ∧
    (Linha.simple_cong_control 2147483648000000 ackEvent Linha.scenarioE).snd_cwnd = 1000 ∧
    (Expolin.simple_cong_control maskedShift 2147483648000000 ackEvent
      Expolin.scenarioE).snd_cwnd ≠ max (1000 + 2 * 2147483648) 1 := by
  decide

/-! ## Floors -/

/-- C8 (the code at the failing input): with recovery inactive, window
1632967296 below `ssthresh = 2147483647`, an acknowledgment at elapsed time
1100 ms takes the slow-start branch, whose increment is
`2 * 1100^3 = 2662000000`; the sum is exactly `2^32` and the window becomes 0,
in either variant. -/
theorem slow_start_wraps_to_zero :
    ackEvent.losses = 0 ∧ 0 < ackEvent.acked_sacked ∧
    time_in_ms 0 1100000000 = 1100 ∧
    (Expolin.loadState 1632967296 TCP_INFINITE_SSTHRESH 5000).snd_cwnd <
      (Expolin.loadState 1632967296 TCP_INFINITE_SSTHRESH 5000).snd_ssthresh ∧
    (Expolin.simple_cong_control maskedShift 1100000000 ackEvent
      (Expolin.loadState 1632967296 TCP_INFINITE_SSTHRESH 5000)).snd_cwnd = 0 ∧
    (Linha.simple_cong_control 1100000000 ackEvent
      (Linha.loadState 1632967296 TCP_INFINITE_SSTHRESH 5000)).snd_cwnd = 0 := by
  decide

/-- C9 (the code at the failing input): in the linear variant an accepted loss
on window 1 computes `1 * 9 / 10 = 0` and leaves the window 0; and starting
from `simple_init` with initial window 10, ten accepted losses (at `snd_nxt`
1, 2, ..., 10) bring the window from 10 down to 0. -/
theorem Linha.loss_reaches_zero :
    0 < lossEvent.losses ∧
    (Linha.loadState 1 TCP_INFINITE_SSTHRESH 5000).recovery_mode = 0 ∧
    1 ≤ (Linha.loadState 1 TCP_INFINITE_SSTHRESH 5000).snd_cwnd ∧
    (Linha.simple_cong_control 7 lossEvent
      (Linha.loadState 1 TCP_INFINITE_SSTHRESH 5000)).snd_cwnd = 0 ∧
    ((List.range' 1 10).foldl Linha.lossAt
      (Linha.simple_init 10 0 (Linha.loadState 0 TCP_INFINITE_SSTHRESH 0))).snd_cwnd = 0 := by
  decide

/-- C10: in both variants `simple_undo_cwnd` returns exactly
`max snd_cwnd 2`, which is at least 2 in every state, and leaves the state as
it was. -/
theorem undo_floor :
    (∀ s : Expolin.State,
      (Expolin.simple_undo_cwnd s).1 = max s.snd_cwnd 2 ∧
      2 ≤ (Expolin.simple_undo_cwnd s).1 ∧ (Expolin.simple_undo_cwnd s).2 = s) ∧
    (∀ s : Linha.State,
      (Linha.simple_undo_cwnd s).1 = max s.snd_cwnd 2 ∧
      2 ≤ (Linha.simple_undo_cwnd s).1 ∧ (Linha.simple_undo_cwnd s).2 = s) :=
  ⟨fun s => ⟨rfl, le_max_right s.snd_cwnd 2, rfl⟩,
   fun s => ⟨rfl, le_max_right s.snd_cwnd 2, rfl⟩⟩

/-! ## Initialisation -/

/-- C11: in both variants `simple_init` sets the window to `TCP_INIT_CWND`,
the epoch to `now`, `recovery_mode` and `recovery_point` to 0 and leaves every
other field, from any prior state; `simple_undo_cwnd` called on the result
returns `max TCP_INIT_CWND 2`. -/
theorem init_resets :
    (∀ (icw now : Nat) (s : Expolin.State),
      Expolin.simple_init icw now s =
        { s with snd_cwnd := icw, start_time_ns := now, recovery_mode := 0,
                 recovery_point := 0 } ∧
      (Expolin.simple_undo_cwnd (Expolin.simple_init icw now s)).1 = max icw 2) ∧
    (∀ (icw now : Nat) (s : Linha.State),
      Linha.simple_init icw now s =
        { s with snd_cwnd := icw, start_time_ns := now, recovery_mode := 0,
                 recovery_point := 0 } ∧
      (Linha.simple_undo_cwnd (Linha.simple_init icw now s)).1 = max icw 2) :=
  ⟨fun _ _ _ => ⟨rfl, rfl⟩, fun _ _ _ => ⟨rfl, rfl⟩⟩

/-! ## The exponential approximation -/

/-- C14: `expAdjust t 0 L` is 0 for every `t` and `L`, and no call of
`expAdjust` evaluates a division by zero: the version with a fallible division
always produces the value of `expAdjust`, and produces 0 for `k = 0`. -/
theorem Expolin.expAdjust_zero_divisor (hw : Nat → Nat → Nat) (t L : Nat) :
    Expolin.expAdjust hw t 0 L = 0 ∧
    Expolin.expAdjust_checked hw t 0 L = some 0 ∧
    ∀ k : Nat, Expolin.expAdjust_checked hw t k L = some (Expolin.expAdjust hw t k L) := by
  refine ⟨by simp [Expolin.expAdjust], by simp [Expolin.expAdjust_checked], fun k => ?_⟩
  by_cases hk : k = 0
  · simp [Expolin.expAdjust, Expolin.expAdjust_checked, hk]
  · simp [Expolin.expAdjust, Expolin.expAdjust_checked, div32, hk]

/-! ## Dispatch -/

/-- C15: in both variants `simple_cong_control` with `losses > 0` runs only
the loss handling (whatever `acked_sacked` is), with `losses = 0` and
`acked_sacked > 0` runs the acknowledgment handling, and with both 0 returns
the state unchanged. -/
theorem cong_control_dispatch :
    (∀ (hw : Nat → Nat → Nat) (now : Nat) (rs : RateSample) (s : Expolin.State),
      (0 < rs.losses → Expolin.simple_cong_control hw now rs s = Expolin.loss_handling now s) ∧
      (rs.losses = 0 → 0 < rs.acked_sacked →
        Expolin.simple_cong_control hw now rs s = Expolin.ack_handling hw now s) ∧
      (rs.losses = 0 → rs.acked_sacked = 0 → Expolin.simple_cong_control hw now rs s = s)) ∧
    (∀ (now : Nat) (rs : RateSample) (s : Linha.State),
      (0 < rs.losses → Linha.simple_cong_control now rs s = Linha.loss_handling now s) ∧
      (rs.losses = 0 → 0 < rs.acked_sacked →
        Linha.simple_cong_control now rs s = Linha.ack_handling now s) ∧
      (rs.losses = 0 → rs.acked_sacked = 0 → Linha.simple_cong_control now rs s = s)) := by
  constructor
  · intro hw now rs s
    refine ⟨fun hl => ?_, fun hl ha => ?_, fun hl ha => ?_⟩
    · simp [Expolin.simple_cong_control, Expolin.loss_handling, hl]
    · have ha0 : rs.acked_sacked ≠ 0 := Nat.pos_iff_ne_zero.mp ha
      simp [Expolin.simple_cong_control, Expolin.ack_handling, Expolin.growth_branches, hl, ha0]
    · simp [Expolin.simple_cong_control, hl, ha]
  · intro now rs s
    refine ⟨fun hl => ?_, fun hl ha => ?_, fun hl ha => ?_⟩
    · simp [Linha.simple_cong_control, Linha.loss_handling, hl]
    · have ha0 : rs.acked_sacked ≠ 0 := Nat.pos_iff_ne_zero.mp ha
      simp [Linha.simple_cong_control, Linha.ack_handling, Linha.growth_branches, hl, ha0]
    · simp [Linha.simple_cong_control, hl, ha]

/-- On the state Scenario B leaves, with `snd_nxt` advanced to 6000: a sample
with one loss and three acknowledged packets gives the loss transition (window
640 or 810), a sample with only an acknowledgment at 4 ms gives the recovery
growth (901 or 904), an empty sample changes nothing. -/
theorem cong_control_dispatch_witness :
    (Expolin.simple_cong_control maskedShift 4000007 { losses := 1, acked_sacked := 3 }
        { Expolin.scenarioB with snd_nxt := 6000 } =
      { snd_cwnd := 640, snd_ssthresh := 400, snd_nxt := 6000, start_time_ns := 4000007,
        recovery_mode := 1, recovery_point := 6000, jBase := 640,
        snd_second_thresh := 800, drep := 160 } ∧
     Expolin.simple_cong_control maskedShift 4000007 ackEvent
        { Expolin.scenarioB with snd_nxt := 6000 } =
      { Expolin.scenarioB with snd_nxt := 6000, snd_cwnd := 901 } ∧
     Expolin.simple_cong_control maskedShift 4000007 { losses := 0, acked_sacked := 0 }
        { Expolin.scenarioB with snd_nxt := 6000 } =
      { Expolin.scenarioB with snd_nxt := 6000 }) ∧
    (Linha.simple_cong_control 4000007 { losses := 1, acked_sacked := 3 }
        { Linha.scenarioB with snd_nxt := 6000 } =
      { snd_cwnd := 810, snd_ssthresh := 450, snd_nxt := 6000, start_time_ns := 4000007,
        recovery_mode := 1, recovery_point := 6000, jBase := 810,
        snd_second_thresh := 900 } ∧
     Linha.simple_cong_control 4000007 ackEvent { Linha.scenarioB with snd_nxt := 6000 } =
      { Linha.scenarioB with snd_nxt := 6000, snd_cwnd := 904 } ∧
     Linha.simple_cong_control 4000007 { losses := 0, acked_sacked := 0 }
        { Linha.scenarioB with snd_nxt := 6000 } =
      { Linha.scenarioB with snd_nxt := 6000 }) :=
  ⟨⟨(cong_control_dispatch.1 maskedShift 4000007 { losses := 1, acked_sacked := 3 }
        { Expolin.scenarioB with snd_nxt := 6000 }).1 (by decide),
    (cong_control_dispatch.1 maskedShift 4000007 ackEvent
        { Expolin.scenarioB with snd_nxt := 6000 }).2.1 rfl (by decide),
    (cong_control_dispatch.1 maskedShift 4000007 { losses := 0, acked_sacked := 0 }
        { Expolin.scenarioB with snd_nxt := 6000 }).2.2 rfl rfl⟩,
   ⟨(cong_control_dispatch.2 4000007 { losses := 1, acked_sacked := 3 }
        { Linha.scenarioB with snd_nxt := 6000 }).1 (by decide),
    (cong_control_dispatch.2 4000007 ackEvent
        { Linha.scenarioB with snd_nxt := 6000 }).2.1 rfl (by decide),
    (cong_control_dispatch.2 4000007 { losses := 0, acked_sacked := 0 }
        { Linha.scenarioB with snd_nxt := 6000 }).2.2 rfl rfl⟩⟩

/-! ## The two variants compared -/

/-- C18: on the fields the two modules share, `simple_init`,
`simple_undo_cwnd`, `simple_ssthresh`, a suppressed loss report and an
acknowledgment processed with recovery inactive give the same returned value
and the same next state in the exponential and in the linear variant, for
every state and clock value; the exponential variant's extra field `drep` is
left as it was by all of them. -/
theorem variant_equivalence (hw : Nat → Nat → Nat) (s : Expolin.State) :
    (∀ icw now : Nat,
      Expolin.toLinha (Expolin.simple_init icw now s) =
        Linha.simple_init icw now (Expolin.toLinha s) ∧
      (Expolin.simple_init icw now s).drep = s.drep) ∧
    ((Expolin.simple_undo_cwnd s).1 = (Linha.simple_undo_cwnd (Expolin.toLinha s)).1 ∧
      Expolin.toLinha (Expolin.simple_undo_cwnd s).2 =
        (Linha.simple_undo_cwnd (Expolin.toLinha s)).2 ∧
      (Expolin.simple_undo_cwnd s).2.drep = s.drep) ∧
    (∀ now : Nat,
      (Expolin.simple_ssthresh now s).1 = (Linha.simple_ssthresh now (Expolin.toLinha s)).1 ∧
      Expolin.toLinha (Expolin.simple_ssthresh now s).2 =
        (Linha.simple_ssthresh now (Expolin.toLinha s)).2 ∧
      (Expolin.simple_ssthresh now s).2.drep = s.drep) ∧
    (∀ (now : Nat) (rs : RateSample),
      0 < rs.losses → s.recovery_mode ≠ 0 → s.snd_nxt ≤ s.recovery_point →
      Expolin.toLinha (Expolin.simple_cong_control hw now rs s) =
        Linha.simple_cong_control now rs (Expolin.toLinha s) ∧
      (Expolin.simple_cong_control hw now rs s).drep = s.drep) ∧
    (∀ (now : Nat) (rs : RateSample),
      rs.losses = 0 → 0 < rs.acked_sacked → s.recovery_mode = 0 →
      Expolin.toLinha (Expolin.simple_cong_control hw now rs s) =
        Linha.simple_cong_control now rs (Expolin.toLinha s) ∧
      (Expolin.simple_cong_control hw now rs s).drep = s.drep) := by
  refine ⟨fun icw now => ⟨rfl, rfl⟩, ⟨rfl, rfl, rfl⟩, fun now => ⟨rfl, rfl, rfl⟩,
    fun now rs hl hr hn => ?_, fun now rs hl ha hr => ?_⟩
  · have h1 : Expolin.simple_cong_control hw now rs s = s := by
      simp [Expolin.simple_cong_control, hl, hr, Nat.not_lt.mpr hn]
    have h2 : Linha.simple_cong_control now rs (Expolin.toLinha s) = Expolin.toLinha s := by
      simp [Linha.simple_cong_control, Expolin.toLinha, hl, hr, Nat.not_lt.mpr hn]
    rw [h1, h2]
    exact ⟨rfl, rfl⟩
  · have ha0 : rs.acked_sacked ≠ 0 := Nat.pos_iff_ne_zero.mp ha
    rw [Expolin.ack_outside_recovery hw now rs s hl ha0 hr,
      Linha.linear_ack_outside_recovery now rs (Expolin.toLinha s) hl ha0 hr]
    simp only [Expolin.growth_branches, Linha.growth_branches, Expolin.toLinha]
    split_ifs <;> exact ⟨rfl, rfl⟩

/-- A suppressed loss report on the state Scenario B leaves, and an
acknowledgment at 10 ms on the state of Scenario E, in both variants. -/
theorem variant_equivalence_witness :
    (Expolin.toLinha (Expolin.simple_cong_control maskedShift 99 lossEvent Expolin.scenarioB) =
        Linha.simple_cong_control 99 lossEvent (Expolin.toLinha Expolin.scenarioB) ∧
      (Expolin.simple_cong_control maskedShift 99 lossEvent Expolin.scenarioB).drep = 200) ∧
    (Expolin.toLinha (Expolin.simple_cong_control maskedShift 10000000 ackEvent
          Expolin.scenarioE) =
        Linha.simple_cong_control 10000000 ackEvent (Expolin.toLinha Expolin.scenarioE) ∧
      (Expolin.simple_cong_control maskedShift 10000000 ackEvent Expolin.scenarioE).drep = 200) ∧
    (Linha.simple_cong_control 10000000 ackEvent
        (Expolin.toLinha Expolin.scenarioE)).snd_cwnd = 1020 :=
  ⟨(variant_equivalence maskedShift Expolin.scenarioB).2.2.2.1 99 lossEvent
      (by decide) (by decide) (by decide),
   (variant_equivalence maskedShift Expolin.scenarioE).2.2.2.2 10000000 ackEvent
      rfl (by decide) rfl,
   by decide⟩

/-! ## Range of the exponential approximation -/

theorem shr32_of_lt (hw : Nat → Nat → Nat) (x : Nat) {n : Nat} (h : n < 32) :
    shr32 hw x n = x >>> n := by
  simp [shr32, h]

theorem scale_shift_antitone {m n : Nat} (h : m ≤ n) : 65536 >>> n ≤ 65536 >>> m := by
  rw [Nat.shiftRight_eq_div_pow, Nat.shiftRight_eq_div_pow]
  exact Nat.div_le_div_left (Nat.pow_le_pow_right (by decide) h) (Nat.two_pow_pos m)

theorem scale_shift_le (n : Nat) : 65536 >>> n ≤ 65536 := by
  rw [Nat.shiftRight_eq_div_pow]
  exact Nat.div_le_self _ _

theorem scale_shift_zero {n : Nat} (h : 17 ≤ n) : 65536 >>> n = 0 := by
  rw [Nat.shiftRight_eq_div_pow]
  apply Nat.div_eq_of_lt
  calc 65536 < 2 ^ 17 := by decide
    _ ≤ 2 ^ n := Nat.pow_le_pow_right (by decide) h

theorem scale_shift_pos {n : Nat} (h : n ≤ 16) : 1 ≤ 65536 >>> n := by
  have h1 := scale_shift_antitone h
  have h2 : 65536 >>> 16 = 1 := by decide
  omega

/-- The scaled exponent `FIXED_POINT_SCALE >> n` is at most the scale and does
not grow with `n`, as long as the larger count is below 32 or the target
yields 0 for counts of 32 and more. -/
theorem Expolin.scaled_exponent_antitone (hw : Nat → Nat → Nat) {m n : Nat} (h : m ≤ n)
    (hs : n < 32 ∨ ∀ j, 32 ≤ j → u32 (hw Expolin.FIXED_POINT_SCALE j) = 0) :
    shr32 hw Expolin.FIXED_POINT_SCALE n ≤ shr32 hw Expolin.FIXED_POINT_SCALE m ∧
    shr32 hw Expolin.FIXED_POINT_SCALE m ≤ 65536 := by
  unfold Expolin.FIXED_POINT_SCALE at *
  by_cases hn : n < 32
  · have hm : m < 32 := by omega
    rw [shr32_of_lt hw _ hn, shr32_of_lt hw _ hm]
    exact ⟨scale_shift_antitone h, scale_shift_le m⟩
  · have hz : ∀ j, 32 ≤ j → u32 (hw 65536 j) = 0 := by
      rcases hs with hs | hs
      · exact absurd hs hn
      · exact hs
    have e : shr32 hw 65536 n = 0 := by
      simp only [shr32, hn, if_false]
      exact hz n (by omega)
    rw [e]
    refine ⟨Nat.zero_le _, ?_⟩
    by_cases hm : m < 32
    · rw [shr32_of_lt hw _ hm]
      exact scale_shift_le m
    · simp only [shr32, hm, if_false]
      rw [hz m (by omega)]
      exact Nat.zero_le _

/-- The value of `expAdjust` when nothing wraps: `k ≠ 0`, the scaled exponent
is at most the scale, and `L` is below `2^16`. -/
theorem Expolin.expAdjust_eq (hw : Nat → Nat → Nat) (t k L : Nat) (hk : k ≠ 0)
    (hse : shr32 hw Expolin.FIXED_POINT_SCALE (t / k) ≤ 65536) (hL : L < 65536) :
    Expolin.expAdjust hw t k L =
      L * (65536 - shr32 hw Expolin.FIXED_POINT_SCALE (t / k)) / 65536 := by
  have hb : L * (65536 - shr32 hw Expolin.FIXED_POINT_SCALE (t / k)) < U32_SIZE := by
    have h1 : L * (65536 - shr32 hw Expolin.FIXED_POINT_SCALE (t / k)) ≤ L * 65536 :=
      Nat.mul_le_mul_left L (Nat.sub_le _ _)
    unfold U32_SIZE
    omega
  have hsub : sub32 Expolin.FIXED_POINT_SCALE (shr32 hw Expolin.FIXED_POINT_SCALE (t / k)) =
      65536 - shr32 hw Expolin.FIXED_POINT_SCALE (t / k) :=
    sub32_of_le hse (by decide)
  simp only [Expolin.expAdjust, hk, if_false, hsub, u32_of_lt hb, Nat.shiftRight_eq_div_pow]

/-- Inside the range where nothing wraps, `expAdjust` does not decrease with
`t`. -/
theorem Expolin.expAdjust_mono_in_range (hw : Nat → Nat → Nat) (t1 t2 k L : Nat)
    (hk : 0 < k) (hL : L < 65536) (ht : t1 ≤ t2)
    (hs : t2 / k < 32 ∨ ∀ j, 32 ≤ j → u32 (hw Expolin.FIXED_POINT_SCALE j) = 0) :
    Expolin.expAdjust hw t1 k L ≤ Expolin.expAdjust hw t2 k L := by
  have hk0 : k ≠ 0 := Nat.pos_iff_ne_zero.mp hk
  have hdiv : t1 / k ≤ t2 / k := Nat.div_le_div_right ht
  obtain ⟨h21, h1⟩ := Expolin.scaled_exponent_antitone hw hdiv hs
  have h2 : shr32 hw Expolin.FIXED_POINT_SCALE (t2 / k) ≤ 65536 := le_trans h21 h1
  rw [Expolin.expAdjust_eq hw t1 k L hk0 h1 hL, Expolin.expAdjust_eq hw t2 k L hk0 h2 hL]
  exact Nat.div_le_div_right (Nat.mul_le_mul_left L (Nat.sub_le_sub_left h21 _))

/-- C12 (the code at the failing inputs): `expAdjust` decreases in `t` in two
ways.  With `L = 65536` and `k = 4` the product `L * adjustment` wraps, so the
value at `t = 4` is 32768 and the value at `t = 68` is 0, on any target.  With
`L = 200` and `k = 4`, on a target whose shifter masks the count, the shift by
`128 / 4 = 32` gives the scale back, so the value at `t = 124` is 200 and the
value at `t = 128` is 0. -/
theorem Expolin.expAdjust_decreases :
    (Expolin.expAdjust maskedShift 4 4 65536 = 32768 ∧
      Expolin.expAdjust maskedShift 68 4 65536 = 0 ∧
      Expolin.expAdjust zeroShift 4 4 65536 = 32768 ∧
      Expolin.expAdjust zeroShift 68 4 65536 = 0) ∧
    (Expolin.expAdjust maskedShift 124 4 200 = 200 ∧
      Expolin.expAdjust maskedShift 128 4 200 = 0) := by
  decide

/-- From `t / k = 17` on the scaled exponent is 0 and `expAdjust` returns `L`,
when `L` is below `2^16` and the shift count is below 32 or the target yields
0 for larger counts. -/
theorem Expolin.expAdjust_full (hw : Nat → Nat → Nat) (t k L : Nat)
    (hk : 0 < k) (hL : L < 65536) (ht : 17 ≤ t / k)
    (hs : t / k < 32 ∨ ∀ j, 32 ≤ j → u32 (hw Expolin.FIXED_POINT_SCALE j) = 0) :
    shr32 hw Expolin.FIXED_POINT_SCALE (t / k) = 0 ∧ Expolin.expAdjust hw t k L = L := by
  have hk0 : k ≠ 0 := Nat.pos_iff_ne_zero.mp hk
  have hz : shr32 hw Expolin.FIXED_POINT_SCALE (t / k) = 0 := by
    by_cases hn : t / k < 32
    · rw [shr32_of_lt hw _ hn]
      exact scale_shift_zero ht
    · rcases hs with hs | hs
      · exact absurd hs hn
      · simp only [shr32, hn, if_false]
        exact hs (t / k) (by omega)
  refine ⟨hz, ?_⟩
  rw [Expolin.expAdjust_eq hw t k L hk0 (by rw [hz]; exact Nat.zero_le _) hL, hz]
  exact Nat.mul_div_cancel L (by decide)

/-- C13 (amended): for every `k > 0`, every `L < 2^16` and every `t` with
`t / k ≥ 17`, provided `t / k < 32` or the target yields 0 for shift counts of
32 and more, the scaled exponent is 0 and `expAdjust t k L = L`. -/
theorem Expolin.expAdjust_saturates (hw : Nat → Nat → Nat) (t k L : Nat)
    (hk : 0 < k) (hL : L < 65536) (ht : 17 ≤ t / k)
    (hs : t / k < 32 ∨ ∀ j, 32 ≤ j → u32 (hw Expolin.FIXED_POINT_SCALE j) = 0) :
    shr32 hw Expolin.FIXED_POINT_SCALE (t / k) = 0 ∧ Expolin.expAdjust hw t k L = L :=
  Expolin.expAdjust_full hw t k L hk hL ht hs

/-- With `k = 4` and `L = 200`: `t = 68` on a masking target, and `t = 400`
on a target that yields 0 for large counts. -/
theorem Expolin.expAdjust_saturates_witness :
    (shr32 maskedShift Expolin.FIXED_POINT_SCALE (68 / 4) = 0 ∧
      Expolin.expAdjust maskedShift 68 4 200 = 200) ∧
    (shr32 zeroShift Expolin.FIXED_POINT_SCALE (400 / 4) = 0 ∧
      Expolin.expAdjust zeroShift 400 4 200 = 200) :=
  ⟨Expolin.expAdjust_saturates maskedShift 68 4 200 (by decide) (by decide) (by decide)
      (Or.inl (by decide)),
   Expolin.expAdjust_saturates zeroShift 400 4 200 (by decide) (by decide) (by decide)
      (Or.inr (fun _ _ => rfl))⟩

/-- C13 as stated fails: at `t / k = 16` the scaled exponent is
`65536 >> 16 = 1`, not 0, and `expAdjust 64 4 200` is 199, not 200, on any
target. -/
theorem Expolin.expAdjust_at_sixteen :
    0 < 4 ∧ 16 ≤ 64 / 4 ∧
    shr32 maskedShift Expolin.FIXED_POINT_SCALE (64 / 4) = 1 ∧
    Expolin.expAdjust maskedShift 64 4 200 = 199 ∧
    shr32 zeroShift Expolin.FIXED_POINT_SCALE (64 / 4) = 1 ∧
    Expolin.expAdjust zeroShift 64 4 200 = 199 ∧
    Expolin.expAdjust maskedShift 64 4 200 ≠ 200 := by
  decide

/-! ## The linear variant -/

/-- C16 (amended): in the linear variant, with recovery active, an
acknowledgment at elapsed time `t` with `jBase + t < 2^32` sets the window to
`max (jBase + t) 1`, and recovery is left in that call exactly when the new
window is at least the secondary threshold. -/
theorem Linha.linear_recovery_growth (now : Nat) (rs : RateSample) (s : Linha.State)
    (hl : rs.losses = 0) (ha : 0 < rs.acked_sacked) (hr : s.recovery_mode ≠ 0)
    (hb : s.jBase + time_in_ms s.start_time_ns now < U32_SIZE) :
    (Linha.simple_cong_control now rs s).snd_cwnd =
      max (s.jBase + time_in_ms s.start_time_ns now) 1 ∧
    ((Linha.simple_cong_control now rs s).recovery_mode = 0 ↔
      s.snd_second_thresh ≤ (Linha.simple_cong_control now rs s).snd_cwnd) := by
  have e := Linha.linear_ack_in_recovery now rs s hl (Nat.pos_iff_ne_zero.mp ha) hr
  rw [Nat.one_mul, u32_of_lt hb] at e
  by_cases h : s.snd_second_thresh ≤ max (s.jBase + time_in_ms s.start_time_ns now) 1
  · rw [if_pos h] at e
    rw [e]
    exact ⟨rfl, fun _ => h, fun _ => rfl⟩
  · rw [if_neg h] at e
    rw [e]
    exact ⟨rfl, fun h0 => absurd h0 hr, fun h1 => absurd h1 h⟩

/-- After a loss at time 7 on window 1000 (baseline 900, threshold 1000): an
acknowledgment at 4 ms gives 904 and recovery stays, at 100 ms it gives 1000
and recovery ends. -/
theorem Linha.linear_recovery_growth_witness :
    (time_in_ms 7 4000007 = 4 ∧ time_in_ms 7 100000007 = 100) ∧
    ((Linha.simple_cong_control 4000007 ackEvent Linha.scenarioB).snd_cwnd = 904 ∧
      ((Linha.simple_cong_control 4000007 ackEvent Linha.scenarioB).recovery_mode = 0 ↔
        1000 ≤ (Linha.simple_cong_control 4000007 ackEvent Linha.scenarioB).snd_cwnd)) ∧
    ((Linha.simple_cong_control 100000007 ackEvent Linha.scenarioB).snd_cwnd = 1000 ∧
      ((Linha.simple_cong_control 100000007 ackEvent Linha.scenarioB).recovery_mode = 0 ↔
        1000 ≤ (Linha.simple_cong_control 100000007 ackEvent Linha.scenarioB).snd_cwnd)) :=
  ⟨by decide,
   Linha.linear_recovery_growth 4000007 ackEvent Linha.scenarioB rfl (by decide) (by decide)
     (by decide),
   Linha.linear_recovery_growth 100000007 ackEvent Linha.scenarioB rfl (by decide) (by decide)
     (by decide)⟩

/-- C16 as stated fails: with baseline 900 and elapsed time 4294966396 ms the
sum `jBase + t = 2^32` wraps to 0, the window becomes 1 instead of `2^32`, and
recovery is not left. -/
theorem Linha.linear_recovery_wraps :
    ackEvent.losses = 0 ∧ 0 < ackEvent.acked_sacked ∧ Linha.scenarioB.recovery_mode ≠ 0 ∧
    Linha.scenarioB.jBase = 900 ∧
    time_in_ms Linha.scenarioB.start_time_ns 4294966396000007 = 4294966396 ∧
    (Linha.simple_cong_control 4294966396000007 ackEvent Linha.scenarioB).snd_cwnd = 1 ∧
    (Linha.simple_cong_control 4294966396000007 ackEvent Linha.scenarioB).recovery_mode = 1 ∧
    (Linha.simple_cong_control 4294966396000007 ackEvent Linha.scenarioB).snd_cwnd ≠
      max (900 + 4294966396) 1 := by
  decide

/-- C17 (amended): in the linear variant, an accepted loss on a pre-loss
window `c` with `2 ≤ c` and `c * 9 < 2^32` sets the secondary threshold to `c`,
`ssthresh` to `c / 2`, the window and the baseline to `c * 9 / 10`, recovery
active, the recovery point to `snd_nxt` and the epoch to `now`.  The new window
is `c` minus `c / 10` rounded up, which is `c - c / 10` when 10 divides `c`,
and it is at least 1. -/
theorem Linha.linear_accepted_loss (now : Nat) (rs : RateSample) (s : Linha.State)
    (hl : 0 < rs.losses) (hr : s.recovery_mode = 0 ∨ s.snd_nxt > s.recovery_point)
    (h2 : 2 ≤ s.snd_cwnd) (hc : s.snd_cwnd * 9 < U32_SIZE) :
    Linha.simple_cong_control now rs s =
      { s with
        recovery_mode := 1
        recovery_point := s.snd_nxt
        snd_second_thresh := s.snd_cwnd
        snd_ssthresh := s.snd_cwnd / 2
        snd_cwnd := s.snd_cwnd * 9 / 10
        jBase := s.snd_cwnd * 9 / 10
        start_time_ns := now } ∧
    s.snd_cwnd * 9 / 10 = s.snd_cwnd - (s.snd_cwnd + 9) / 10 ∧
    (s.snd_cwnd % 10 = 0 → s.snd_cwnd * 9 / 10 = s.snd_cwnd - s.snd_cwnd / 10) ∧
    1 ≤ s.snd_cwnd * 9 / 10 := by
  refine ⟨?_, by omega, fun _ => by omega, by omega⟩
  simp only [Linha.simple_cong_control, gt_iff_lt, hl, hr, if_true, u32_of_lt hc]

/-- Window 1000 at module load, loss observed at time 7: window 900,
`ssthresh` 500. -/
theorem Linha.linear_accepted_loss_witness :
    Linha.simple_cong_control 7 lossEvent (Linha.loadState 1000 TCP_INFINITE_SSTHRESH 5000) =
      { snd_cwnd := 900, snd_ssthresh := 500, snd_nxt := 5000, start_time_ns := 7,
        recovery_mode := 1, recovery_point := 5000, jBase := 900,
        snd_second_thresh := 1000 } ∧
    1000 * 9 / 10 = 1000 - 1000 / 10 :=
  ⟨(Linha.linear_accepted_loss 7 lossEvent (Linha.loadState 1000 TCP_INFINITE_SSTHRESH 5000)
      (by decide) (Or.inl rfl) (by decide) (by decide)).1,
   (Linha.linear_accepted_loss 7 lossEvent (Linha.loadState 1000 TCP_INFINITE_SSTHRESH 5000)
      (by decide) (Or.inl rfl) (by decide) (by decide)).2.2.1 (by decide)⟩

/-- C17 as stated fails: on the pre-loss window 1005 the code computes
`1005 * 9 / 10 = 904`, while `c - c / 10` is `1005 - 100 = 905`. -/
theorem Linha.nine_tenths_rounds_down :
    0 < lossEvent.losses ∧
    (Linha.loadState 1005 TCP_INFINITE_SSTHRESH 5000).recovery_mode = 0 ∧
    (Linha.simple_cong_control 7 lossEvent
      (Linha.loadState 1005 TCP_INFINITE_SSTHRESH 5000)).snd_cwnd = 904 ∧
    (Linha.simple_cong_control 7 lossEvent
      (Linha.loadState 1005 TCP_INFINITE_SSTHRESH 5000)).jBase = 904 ∧
    1005 - 1005 / 10 = 905 ∧
    (Linha.simple_cong_control 7 lossEvent
      (Linha.loadState 1005 TCP_INFINITE_SSTHRESH 5000)).snd_cwnd ≠ 1005 - 1005 / 10 := by
  decide

/-! ## A whole recovery episode in the exponential variant -/

theorem Expolin.loss_transition (hw : Nat → Nat → Nat) (now : Nat) (rs : RateSample)
    (s : Expolin.State) (hl : 0 < rs.losses)
    (hr : s.recovery_mode = 0 ∨ s.snd_nxt > s.recovery_point)
    (hc : s.snd_cwnd * 2 < U32_SIZE) :
    Expolin.simple_cong_control hw now rs s =
      { snd_cwnd := s.snd_cwnd - s.snd_cwnd * 2 / 10
        snd_ssthresh := s.snd_cwnd / 2
        snd_nxt := s.snd_nxt
        start_time_ns := now
        recovery_mode := 1
        recovery_point := s.snd_nxt
        jBase := s.snd_cwnd - s.snd_cwnd * 2 / 10
        snd_second_thresh := s.snd_cwnd
        drep := s.snd_cwnd * 2 / 10 } := by
  have hd : s.snd_cwnd * 2 / 10 ≤ s.snd_cwnd := by omega
  have hlt : s.snd_cwnd < U32_SIZE := by omega
  simp only [Expolin.simple_cong_control, gt_iff_lt, hl, hr, if_true, u32_of_lt hc,
    sub32_of_le hd hlt]

theorem Expolin.recovery_step (hw : Nat → Nat → Nat) (now : Nat) (rs : RateSample)
    (q : Expolin.State) (hl : rs.losses = 0) (ha : 0 < rs.acked_sacked)
    (hr : q.recovery_mode ≠ 0) (e : Nat)
    (he : Expolin.expAdjust hw (time_in_ms q.start_time_ns now) 4 q.drep = e)
    (hb : q.jBase + e + 1 < U32_SIZE) :
    Expolin.simple_cong_control hw now rs q =
      if q.snd_second_thresh ≤ q.jBase + e + 1
      then { q with snd_cwnd := q.jBase + e + 1, recovery_mode := 0 }
      else { q with snd_cwnd := q.jBase + e + 1 } := by
  rw [Expolin.ack_in_recovery hw now rs q hl (Nat.pos_iff_ne_zero.mp ha) hr, he, u32_of_lt hb,
    max_eq_left (Nat.le_add_left 1 _)]

/-- The state an accepted loss on window `c` leaves, with the window then set
to `w` by earlier acknowledgments of the same recovery: what an acknowledgment
does to it, given the value `e` of `expAdjust`. -/
theorem Expolin.recovery_after_loss (hw : Nat → Nat → Nat) (now now2 : Nat)
    (rs rs2 : RateSample) (s : Expolin.State) (w e : Nat) (hl : 0 < rs.losses)
    (hr : s.recovery_mode = 0 ∨ s.snd_nxt > s.recovery_point)
    (hc : s.snd_cwnd * 2 < U32_SIZE)
    (hl2 : rs2.losses = 0) (ha2 : 0 < rs2.acked_sacked)
    (he : Expolin.expAdjust hw (time_in_ms now now2) 4 (s.snd_cwnd * 2 / 10) = e)
    (hle : e ≤ s.snd_cwnd * 2 / 10) :
    (Expolin.simple_cong_control hw now2 rs2
      { Expolin.simple_cong_control hw now rs s with snd_cwnd := w }).snd_cwnd =
        s.snd_cwnd - s.snd_cwnd * 2 / 10 + e + 1 ∧
    ((Expolin.simple_cong_control hw now2 rs2
      { Expolin.simple_cong_control hw now rs s with snd_cwnd := w }).recovery_mode =
        if s.snd_cwnd ≤ s.snd_cwnd - s.snd_cwnd * 2 / 10 + e + 1 then 0 else 1) := by
  rw [Expolin.loss_transition hw now rs s hl hr hc]
  have hb : s.snd_cwnd - s.snd_cwnd * 2 / 10 + e + 1 < U32_SIZE := by
    unfold U32_SIZE at *
    omega
  have h := Expolin.recovery_step hw now2 rs2
    { snd_cwnd := w
      snd_ssthresh := s.snd_cwnd / 2
      snd_nxt := s.snd_nxt
      start_time_ns := now
      recovery_mode := 1
      recovery_point := s.snd_nxt
      jBase := s.snd_cwnd - s.snd_cwnd * 2 / 10
      snd_second_thresh := s.snd_cwnd
      drep := s.snd_cwnd * 2 / 10 } hl2 ha2 (by simp) e he hb
  rw [h]
  split_ifs <;> exact ⟨rfl, rfl⟩

/-- C19 (amended): in the exponential variant, after an accepted loss on a
pre-loss window `c` with `c * 2 < 2^32` and decrement `c * 2 / 10 < 2^16`, the
baseline plus the decrement is `c`.  An acknowledgment of that recovery at
elapsed time `t` (whatever window earlier acknowledgments left) with
`17 ≤ t / 4 ≤ 31` sets the window to `c + 1` and ends recovery; when the
decrement is at least 1, at `t / 4 = 16` it sets the window to `c` and ends
recovery, and at `t / 4 < 16` the window lies between the baseline plus 1 and
`c`. -/
theorem Expolin.recovery_completes (hw : Nat → Nat → Nat) (now : Nat) (rs : RateSample)
    (s : Expolin.State) (hl : 0 < rs.losses)
    (hr : s.recovery_mode = 0 ∨ s.snd_nxt > s.recovery_point)
    (hc : s.snd_cwnd * 2 < U32_SIZE) (hd : s.snd_cwnd * 2 / 10 < 65536) :
    (Expolin.simple_cong_control hw now rs s).jBase +
      (Expolin.simple_cong_control hw now rs s).drep = s.snd_cwnd ∧
    ∀ (now2 : Nat) (rs2 : RateSample) (w : Nat), rs2.losses = 0 → 0 < rs2.acked_sacked →
      (17 ≤ time_in_ms now now2 / 4 → time_in_ms now now2 / 4 ≤ 31 →
        (Expolin.simple_cong_control hw now2 rs2
          { Expolin.simple_cong_control hw now rs s with snd_cwnd := w }).snd_cwnd =
            s.snd_cwnd + 1 ∧
        (Expolin.simple_cong_control hw now2 rs2
          { Expolin.simple_cong_control hw now rs s with snd_cwnd := w }).recovery_mode = 0) ∧
      (time_in_ms now now2 / 4 = 16 → 1 ≤ s.snd_cwnd * 2 / 10 →
        (Expolin.simple_cong_control hw now2 rs2
          { Expolin.simple_cong_control hw now rs s with snd_cwnd := w }).snd_cwnd =
            s.snd_cwnd ∧
        (Expolin.simple_cong_control hw now2 rs2
          { Expolin.simple_cong_control hw now rs s with snd_cwnd := w }).recovery_mode = 0) ∧
      (time_in_ms now now2 / 4 < 16 → 1 ≤ s.snd_cwnd * 2 / 10 →
        (Expolin.simple_cong_control hw now rs s).jBase + 1 ≤
          (Expolin.simple_cong_control hw now2 rs2
            { Expolin.simple_cong_control hw now rs s with snd_cwnd := w }).snd_cwnd ∧
        (Expolin.simple_cong_control hw now2 rs2
          { Expolin.simple_cong_control hw now rs s with snd_cwnd := w }).snd_cwnd ≤
            s.snd_cwnd) := by
  have hdc : s.snd_cwnd * 2 / 10 ≤ s.snd_cwnd := by omega
  constructor
  · rw [Expolin.loss_transition hw now rs s hl hr hc]
    show s.snd_cwnd - s.snd_cwnd * 2 / 10 + s.snd_cwnd * 2 / 10 = s.snd_cwnd
    omega
  · intro now2 rs2 w hl2 ha2
    refine ⟨fun h17 h31 => ?_, fun h16 hd1 => ?_, fun h15 hd1 => ?_⟩
    · have he := (Expolin.expAdjust_full hw (time_in_ms now now2) 4
        (s.snd_cwnd * 2 / 10) (by decide) hd h17 (Or.inl (by omega))).2
      obtain ⟨h1, h2⟩ := Expolin.recovery_after_loss hw now now2 rs rs2 s w _ hl hr hc hl2 ha2
        he (le_refl _)
      rw [h1, h2]
      constructor
      · omega
      · rw [if_pos (by omega)]
    · have hse : shr32 hw Expolin.FIXED_POINT_SCALE (time_in_ms now now2 / 4) = 1 := by
        rw [h16]
        rfl
      have he := Expolin.expAdjust_eq hw (time_in_ms now now2) 4 (s.snd_cwnd * 2 / 10)
        (by decide) (by rw [hse]; decide) hd
      rw [hse] at he
      have hval : s.snd_cwnd * 2 / 10 * (65536 - 1) / 65536 = s.snd_cwnd * 2 / 10 - 1 := by
        omega
      rw [hval] at he
      obtain ⟨h1, h2⟩ := Expolin.recovery_after_loss hw now now2 rs rs2 s w _ hl hr hc hl2 ha2
        he (Nat.sub_le _ _)
      rw [h1, h2]
      constructor
      · omega
      · rw [if_pos (by omega)]
    · have hn : time_in_ms now now2 / 4 < 32 := by omega
      have hse : shr32 hw Expolin.FIXED_POINT_SCALE (time_in_ms now now2 / 4) =
          65536 >>> (time_in_ms now now2 / 4) := shr32_of_lt hw _ hn
      have hpos := scale_shift_pos (n := time_in_ms now now2 / 4) (by omega)
      have hle := scale_shift_le (time_in_ms now now2 / 4)
      have he := Expolin.expAdjust_eq hw (time_in_ms now now2) 4 (s.snd_cwnd * 2 / 10)
        (by decide) (by rw [hse]; exact hle) hd
      rw [hse] at he
      have hmul : s.snd_cwnd * 2 / 10 * (65536 - 65536 >>> (time_in_ms now now2 / 4)) ≤
          s.snd_cwnd * 2 / 10 * 65535 := Nat.mul_le_mul_left _ (by omega)
      have hbound : s.snd_cwnd * 2 / 10 *
          (65536 - 65536 >>> (time_in_ms now now2 / 4)) / 65536 ≤ s.snd_cwnd * 2 / 10 - 1 := by
        omega
      obtain ⟨h1, _⟩ := Expolin.recovery_after_loss hw now now2 rs rs2 s w _ hl hr hc hl2 ha2
        he (le_trans hbound (Nat.sub_le _ _))
      rw [h1, Expolin.loss_transition hw now rs s hl hr hc]
      show s.snd_cwnd - s.snd_cwnd * 2 / 10 + 1 ≤ _ ∧ _
      constructor <;> omega

/-- Scenario B continued: loss at time 7 on window 1000 (baseline 800,
decrement 200); acknowledgments at 68 ms, 64 ms and 4 ms after the loss. -/
theorem Expolin.recovery_completes_witness :
    ((Expolin.simple_cong_control maskedShift 7 lossEvent
        (Expolin.loadState 1000 TCP_INFINITE_SSTHRESH 5000)).jBase +
      (Expolin.simple_cong_control maskedShift 7 lossEvent
        (Expolin.loadState 1000 TCP_INFINITE_SSTHRESH 5000)).drep = 1000) ∧
    ((Expolin.simple_cong_control maskedShift 68000007 ackEvent
        { Expolin.simple_cong_control maskedShift 7 lossEvent
            (Expolin.loadState 1000 TCP_INFINITE_SSTHRESH 5000) with snd_cwnd := 800 }).snd_cwnd =
        1000 + 1 ∧
      (Expolin.simple_cong_control maskedShift 68000007 ackEvent
        { Expolin.simple_cong_control maskedShift 7 lossEvent
            (Expolin.loadState 1000 TCP_INFINITE_SSTHRESH 5000) with snd_cwnd := 800 }).recovery_mode =
        0) ∧
    ((Expolin.simple_cong_control maskedShift 64000007 ackEvent
        { Expolin.simple_cong_control maskedShift 7 lossEvent
            (Expolin.loadState 1000 TCP_INFINITE_SSTHRESH 5000) with snd_cwnd := 800 }).snd_cwnd =
        1000 ∧
      (Expolin.simple_cong_control maskedShift 64000007 ackEvent
        { Expolin.simple_cong_control maskedShift 7 lossEvent
            (Expolin.loadState 1000 TCP_INFINITE_SSTHRESH 5000) with snd_cwnd := 800 }).recovery_mode =
        0) ∧
    (800 + 1 ≤
        (Expolin.simple_cong_control maskedShift 4000007 ackEvent
          { Expolin.simple_cong_control maskedShift 7 lossEvent
              (Expolin.loadState 1000 TCP_INFINITE_SSTHRESH 5000) with snd_cwnd := 800 }).snd_cwnd ∧
      (Expolin.simple_cong_control maskedShift 4000007 ackEvent
        { Expolin.simple_cong_control maskedShift 7 lossEvent
            (Expolin.loadState 1000 TCP_INFINITE_SSTHRESH 5000) with snd_cwnd := 800 }).snd_cwnd ≤
        1000) :=
  ⟨(Expolin.recovery_completes maskedShift 7 lossEvent
      (Expolin.loadState 1000 TCP_INFINITE_SSTHRESH 5000)
      (by decide) (Or.inl rfl) (by decide) (by decide)).1,
   ((Expolin.recovery_completes maskedShift 7 lossEvent
      (Expolin.loadState 1000 TCP_INFINITE_SSTHRESH 5000)
      (by decide) (Or.inl rfl) (by decide) (by decide)).2 68000007 ackEvent 800
      rfl (by decide)).1 (by decide) (by decide),
   ((Expolin.recovery_completes maskedShift 7 lossEvent
      (Expolin.loadState 1000 TCP_INFINITE_SSTHRESH 5000)
      (by decide) (Or.inl rfl) (by decide) (by decide)).2 64000007 ackEvent 800
      rfl (by decide)).2.1 (by decide) (by decide),
   ((Expolin.recovery_completes maskedShift 7 lossEvent
      (Expolin.loadState 1000 TCP_INFINITE_SSTHRESH 5000)
      (by decide) (Or.inl rfl) (by decide) (by decide)).2 4000007 ackEvent 800
      rfl (by decide)).2.2 (by decide) (by decide)⟩

/-- C19 as stated fails in two places.  After a loss on window 1000, an
acknowledgment at 64 ms (`t / 4 = 16`) sets the window to 1000, not 1001,
because `65536 >> 16` is 1 and `expAdjust` is 199.  After a loss on window 4
the decrement is 0, and an acknowledgment at 0 ms sets the window to 5, above
the pre-loss window. -/
theorem Expolin.recovery_at_sixteen :
    (1000 * 2 < U32_SIZE ∧ 1000 * 2 / 10 < 65536 ∧ time_in_ms 7 64000007 / 4 = 16 ∧
      (Expolin.simple_cong_control maskedShift 64000007 ackEvent
        (Expolin.simple_cong_control maskedShift 7 lossEvent
          (Expolin.loadState 1000 TCP_INFINITE_SSTHRESH 5000))).snd_cwnd = 1000 ∧
      (Expolin.simple_cong_control maskedShift 64000007 ackEvent
        (Expolin.simple_cong_control maskedShift 7 lossEvent
          (Expolin.loadState 1000 TCP_INFINITE_SSTHRESH 5000))).snd_cwnd ≠ 1000 + 1) ∧
    (4 * 2 / 10 = 0 ∧ time_in_ms 7 7 / 4 = 0 ∧
      (Expolin.simple_cong_control maskedShift 7 ackEvent
        (Expolin.simple_cong_control maskedShift 7 lossEvent
          (Expolin.loadState 4 TCP_INFINITE_SSTHRESH 5000))).snd_cwnd = 5 ∧
      ¬ (Expolin.simple_cong_control maskedShift 7 ackEvent
        (Expolin.simple_cong_control maskedShift 7 lossEvent
          (Expolin.loadState 4 TCP_INFINITE_SSTHRESH 5000))).snd_cwnd ≤ 4) := by
  decide

/-! ## Recovery entered through `simple_ssthresh` -/

theorem Expolin.expAdjust_unit_le (hw : Nat → Nat → Nat) (t : Nat) (ht : t / 4 < 32) :
    Expolin.expAdjust hw t 4 1 ≤ 1 := by
  have hse : shr32 hw Expolin.FIXED_POINT_SCALE (t / 4) = 65536 >>> (t / 4) :=
    shr32_of_lt hw _ ht
  have hle := scale_shift_le (t / 4)
  rw [Expolin.expAdjust_eq hw t 4 1 (by decide) (by rw [hse]; exact hle) (by decide), hse]
  omega

/-- An acknowledgment processed in recovery with the statics of module load
(`jBase = 1`, `drep = 1`, `snd_second_thresh = 200`). -/
theorem Expolin.stale_ack (hw : Nat → Nat → Nat) (now : Nat) (rs : RateSample)
    (q : Expolin.State) (hm : q.recovery_mode = 1) (hj : q.jBase = 1) (hd : q.drep = 1)
    (hs : q.snd_second_thresh = 200) (hl : rs.losses = 0) (ha : 0 < rs.acked_sacked)
    (ht : time_in_ms q.start_time_ns now / 4 < 32) :
    Expolin.simple_cong_control hw now rs q =
      { q with snd_cwnd := 1 + Expolin.expAdjust hw (time_in_ms q.start_time_ns now) 4 1 + 1 } ∧
    1 + Expolin.expAdjust hw (time_in_ms q.start_time_ns now) 4 1 + 1 ≤ 3 := by
  have he := Expolin.expAdjust_unit_le hw (time_in_ms q.start_time_ns now) ht
  have hr : q.recovery_mode ≠ 0 := by rw [hm]; decide
  have hb : q.jBase + Expolin.expAdjust hw (time_in_ms q.start_time_ns now) 4 1 + 1 <
      U32_SIZE := by
    unfold U32_SIZE
    omega
  have h := Expolin.recovery_step hw now rs q hl ha hr
    (Expolin.expAdjust hw (time_in_ms q.start_time_ns now) 4 1) (by rw [hd]) hb
  rw [h, hs, hj, if_neg (by omega)]
  exact ⟨rfl, by omega⟩

theorem Expolin.stale_call (hw : Nat → Nat → Nat) (now : Nat) (rs : RateSample)
    (q : Expolin.State) (hm : q.recovery_mode = 1) (hj : q.jBase = 1) (hd : q.drep = 1)
    (hs : q.snd_second_thresh = 200) (hn : q.snd_nxt ≤ q.recovery_point)
    (hc : 0 < rs.losses ∨ time_in_ms q.start_time_ns now / 4 < 32) :
    ∃ w, Expolin.simple_cong_control hw now rs q = { q with snd_cwnd := w } := by
  have hr : q.recovery_mode ≠ 0 := by rw [hm]; decide
  by_cases hl : 0 < rs.losses
  · refine ⟨q.snd_cwnd, ?_⟩
    simp [Expolin.simple_cong_control, hl, hr, Nat.not_lt.mpr hn]
  · have hl0 : rs.losses = 0 := by omega
    have ht : time_in_ms q.start_time_ns now / 4 < 32 := by
      rcases hc with hc | hc
      · exact absurd hc hl
      · exact hc
    by_cases ha : 0 < rs.acked_sacked
    · exact ⟨_, (Expolin.stale_ack hw now rs q hm hj hd hs hl0 ha ht).1⟩
    · refine ⟨q.snd_cwnd, ?_⟩
      have ha0 : rs.acked_sacked = 0 := by omega
      simp [Expolin.simple_cong_control, hl0, ha0]

theorem Expolin.stale_calls (hw : Nat → Nat → Nat) (calls : List (Nat × RateSample)) :
    ∀ q : Expolin.State, q.recovery_mode = 1 → q.jBase = 1 → q.drep = 1 →
      q.snd_second_thresh = 200 → q.snd_nxt ≤ q.recovery_point →
      (∀ c ∈ calls, 0 < c.2.losses ∨ time_in_ms q.start_time_ns c.1 / 4 < 32) →
      ∃ w, Expolin.cong_control_calls hw calls q = { q with snd_cwnd := w } := by
  induction calls with
  | nil => exact fun q _ _ _ _ _ _ => ⟨q.snd_cwnd, rfl⟩
  | cons c cs ih =>
    intro q hm hj hd hs hn hc
    obtain ⟨w1, h1⟩ := Expolin.stale_call hw c.1 c.2 q hm hj hd hs hn
      (hc c (List.mem_cons_self c cs))
    obtain ⟨w2, h2⟩ := ih { q with snd_cwnd := w1 } hm hj hd hs hn
      (fun c2 hc2 => hc c2 (List.mem_cons_of_mem c hc2))
    refine ⟨w2, ?_⟩
    show Expolin.cong_control_calls hw cs (Expolin.simple_cong_control hw c.1 c.2 q) = _
    rw [h1, h2]

/-- C20: in the exponential variant, from any state whose statics are those of
module load (`jBase = 1`, `snd_second_thresh = 200`, `drep = 1`), after
`simple_ssthresh` any number of loss reports at the same `snd_nxt` leave the
window at its pre-loss value and those three statics unchanged; and after any
such loss reports and acknowledgments (each at `t / 4 < 32`), every
acknowledgment at elapsed time `t` with `t / 4 < 32` sets the window to
`1 + expAdjust t 4 1 + 1`, which is at most 3, and recovery stays active. -/
theorem Expolin.stale_recovery (hw : Nat → Nat → Nat) (s : Expolin.State) (now1 : Nat)
    (hj : s.jBase = 1) (hs : s.snd_second_thresh = 200) (hd : s.drep = 1) :
    (∀ losses : List (Nat × RateSample), (∀ c ∈ losses, 0 < c.2.losses) →
      Expolin.cong_control_calls hw losses (Expolin.simple_ssthresh now1 s).2 =
        { s with start_time_ns := now1, recovery_mode := 1, recovery_point := s.snd_nxt }) ∧
    (∀ calls : List (Nat × RateSample),
      (∀ c ∈ calls, 0 < c.2.losses ∨ time_in_ms now1 c.1 / 4 < 32) →
      ∀ (now : Nat) (rs : RateSample), rs.losses = 0 → 0 < rs.acked_sacked →
        time_in_ms now1 now / 4 < 32 →
        Expolin.simple_cong_control hw now rs
            (Expolin.cong_control_calls hw calls (Expolin.simple_ssthresh now1 s).2) =
          { s with
            start_time_ns := now1
            recovery_mode := 1
            recovery_point := s.snd_nxt
            snd_cwnd := 1 + Expolin.expAdjust hw (time_in_ms now1 now) 4 1 + 1 } ∧
        1 + Expolin.expAdjust hw (time_in_ms now1 now) 4 1 + 1 ≤ 3) := by
  constructor
  · intro losses hlosses
    induction losses with
    | nil => rfl
    | cons c cs ih =>
      have hstep : Expolin.simple_cong_control hw c.1 c.2 (Expolin.simple_ssthresh now1 s).2 =
          (Expolin.simple_ssthresh now1 s).2 := by
        have hl := hlosses c (List.mem_cons_self c cs)
        simp [Expolin.simple_cong_control, Expolin.simple_ssthresh, hl]
      show Expolin.cong_control_calls hw cs
        (Expolin.simple_cong_control hw c.1 c.2 (Expolin.simple_ssthresh now1 s).2) = _
      rw [hstep]
      exact ih (fun c2 hc2 => hlosses c2 (List.mem_cons_of_mem c hc2))
  · intro calls hcalls now rs hl ha ht
    obtain ⟨w, hw1⟩ := Expolin.stale_calls hw calls (Expolin.simple_ssthresh now1 s).2
      rfl hj hd hs (le_refl _) hcalls
    rw [hw1]
    exact Expolin.stale_ack hw now rs
      { (Expolin.simple_ssthresh now1 s).2 with snd_cwnd := w } rfl hj hd hs hl ha ht

/-- After `simple_init` with window 10 at module load and `simple_ssthresh` at
time 7: two loss reports change nothing, and acknowledgments at 4 ms and at
68 ms set the window to 2 and to 3, with recovery still active. -/
theorem Expolin.stale_recovery_witness :
    (Expolin.cong_control_calls maskedShift [(8, lossEvent), (9, lossEvent)]
        (Expolin.simple_ssthresh 7
          (Expolin.simple_init 10 0 (Expolin.loadState 0 TCP_INFINITE_SSTHRESH 5000))).2 =
      { snd_cwnd := 10, snd_ssthresh := TCP_INFINITE_SSTHRESH, snd_nxt := 5000,
        start_time_ns := 7, recovery_mode := 1, recovery_point := 5000, jBase := 1,
        snd_second_thresh := 200, drep := 1 }) ∧
    (Expolin.simple_cong_control maskedShift 68000007 ackEvent
        (Expolin.cong_control_calls maskedShift [(8, lossEvent), (4000007, ackEvent)]
          (Expolin.simple_ssthresh 7
            (Expolin.simple_init 10 0 (Expolin.loadState 0 TCP_INFINITE_SSTHRESH 5000))).2) =
      { snd_cwnd := 3, snd_ssthresh := TCP_INFINITE_SSTHRESH, snd_nxt := 5000,
        start_time_ns := 7, recovery_mode := 1, recovery_point := 5000, jBase := 1,
        snd_second_thresh := 200, drep := 1 } ∧
      1 + Expolin.expAdjust maskedShift (time_in_ms 7 68000007) 4 1 + 1 ≤ 3) ∧
    (Expolin.cong_control_calls maskedShift [(8, lossEvent), (4000007, ackEvent)]
        (Expolin.simple_ssthresh 7
          (Expolin.simple_init 10 0 (Expolin.loadState 0 TCP_INFINITE_SSTHRESH 5000))).2).snd_cwnd
      = 2 :=
  ⟨(Expolin.stale_recovery maskedShift
      (Expolin.simple_init 10 0 (Expolin.loadState 0 TCP_INFINITE_SSTHRESH 5000)) 7
      rfl rfl rfl).1 [(8, lossEvent), (9, lossEvent)] (by decide),
   (Expolin.stale_recovery maskedShift
      (Expolin.simple_init 10 0 (Expolin.loadState 0 TCP_INFINITE_SSTHRESH 5000)) 7
      rfl rfl rfl).2 [(8, lossEvent), (4000007, ackEvent)] (by decide) 68000007 ackEvent
      rfl (by decide) (by decide),
   by decide⟩

end CCA
